import Mathlib

/-!
Shallow embedding of the concurrent-pipeline orchestration core of the
BidBot repository: the data model and result-merge engine
(`src/src/models/data_models.py`), the fan-out/fan-in pipeline
(`src/src/graph/bidding_graph.py` and the agent node functions under
`src/src/agents/`), the parallel progress registry
(`src/src/agents/parallel_aggregator.py`) and the task scheduler
(`src/api/services/task_service.py`).

Modelling conventions:
* Python `str` is `String`; `None`-able values are `Option`; Python `float`
  confidence values are carried as `ℚ` (they never influence control flow).
* Python truthiness of an optional string (`None` and `""` are falsy) is
  `pyTruthyOptStr`; `v and v.strip()` is `hasNonBlank`.
* `datetime` values are tick counts (`Nat`); a `datetime` object is always
  truthy in Python, so `new.analysis_time or existing.analysis_time`
  always picks `new`.
* I/O and collaborator calls (document loading, vector indexing, LLM
  calls, report saving) are abstracted as explicit outcome parameters of
  type `Except String _`: an `Except.error m` models the collaborator
  raising an exception whose `str(e)` is `m`.
* CPython's `list(set(xs))` has implementation-defined, hash-dependent
  iteration order. The executable pipeline model fixes one possible
  listing (`pySetList`, first occurrence) — no property proved about
  pipeline runs depends on the order of the processing notes — while
  statements about the merge's processing notes quantify over every
  possible listing (`isSetListing`).
-/

/-- Truthiness of an optional Python string: `None` and `""` are falsy. -/
def pyTruthyOptStr : Option String → Bool
  | none => false
  | some s => !s.isEmpty

/-- Character-list prefix test (kernel-reducible replacement for the
built-in position-based string primitives). -/
def leadsCharList : List Char → List Char → Bool
  | [], _ => true
  | _ :: _, [] => false
  | a :: as, b :: bs => a == b && leadsCharList as bs

/-- Character-list infix test: the needle occurs at some position. -/
def hasSubCharList (needle : List Char) : List Char → Bool
  | [] => leadsCharList needle []
  | c :: cs => leadsCharList needle (c :: cs) || hasSubCharList needle cs

/-- Python `s.strip()`: drop whitespace from both ends. -/
def pyStrip (s : String) : String :=
  String.mk (((s.data.dropWhile Char.isWhitespace).reverse.dropWhile
    Char.isWhitespace).reverse)

/-- Models `field.value and field.value.strip()`: the value is present,
non-empty, and not whitespace-only. -/
def hasNonBlank : Option String → Bool
  | none => false
  | some s => !s.isEmpty && !(pyStrip s).isEmpty

/-- Models Python `a or b` on strings: `a` if non-empty, else `b`. -/
def pyOrStr (a b : String) : String :=
  if a.isEmpty then b else a

/-- Substring test `needle in haystack` (Python `in`). -/
def containsSub (haystack needle : String) : Bool :=
  hasSubCharList needle.data haystack.data

/-- Prefix test `line.startswith(p)` (Python `startswith`). -/
def startsWithSub (line p : String) : Bool :=
  leadsCharList p.data line.data

/-- Python `content.split('\n')`: the accumulated current segment is kept
in reverse. -/
def splitLinesAux (cur : List Char) : List Char → List String
  | [] => [String.mk cur.reverse]
  | c :: cs =>
      if c = '\n' then String.mk cur.reverse :: splitLinesAux [] cs
      else splitLinesAux (c :: cur) cs

/-- Python `content.split('\n')`. -/
def splitLines (s : String) : List String :=
  splitLinesAux [] s.data

/-- DocumentSource (`data_models.py`). -/
structure DocumentSource where
  page_number : Option Int := none
  sectionName : Option String := none
  paragraph : Option String := none
  source_text : Option String := none
deriving DecidableEq

/-- ExtractedField (`data_models.py`). -/
structure ExtractedField where
  value : Option String := none
  source : Option DocumentSource := none
  confidence : Option ℚ := none
  fieldNotes : Option String := none
deriving DecidableEq

/-- QualificationCriteria (`data_models.py`). -/
structure QualificationCriteria where
  company_certifications : List ExtractedField := []
  project_experience : List ExtractedField := []
  team_requirements : List ExtractedField := []
  other_requirements : List ExtractedField := []
deriving DecidableEq

/-- BidDocumentRequirements (`data_models.py`). -/
structure BidDocumentRequirements where
  composition_and_format : List ExtractedField := []
  binding_and_sealing : List ExtractedField := []
  signature_and_seal : List ExtractedField := []
  document_structure : List ExtractedField := []
deriving DecidableEq

/-- BidEvaluationProcess (`data_models.py`). -/
structure BidEvaluationProcess where
  bid_opening : List ExtractedField := []
  evaluation : List ExtractedField := []
  award_decision : List ExtractedField := []
deriving DecidableEq

/-- BasicInformation (`data_models.py`). -/
structure BasicInformation where
  project_name : ExtractedField := {}
  tender_number : ExtractedField := {}
  budget_amount : ExtractedField := {}
  bid_deadline : ExtractedField := {}
  bid_opening_time : ExtractedField := {}
  bid_bond_amount : ExtractedField := {}
  bid_bond_account : ExtractedField := {}
  purchaser_name : ExtractedField := {}
  purchaser_contact : ExtractedField := {}
  agent_name : ExtractedField := {}
  agent_contact : ExtractedField := {}
  qualification_criteria : QualificationCriteria := {}
  bid_document_requirements : BidDocumentRequirements := {}
  bid_evaluation_process : BidEvaluationProcess := {}
deriving DecidableEq

/-- ScoreComposition (`data_models.py`). -/
structure ScoreComposition where
  technical_score : ExtractedField := {}
  commercial_score : ExtractedField := {}
  price_score : ExtractedField := {}
  other_scores : List ExtractedField := []
deriving DecidableEq

/-- The `Union[float, str]` max-score of a scoring item. -/
inductive MaxScore where
  | num (q : ℚ)
  | txt (s : String)
deriving DecidableEq

/-- ScoringItem (`data_models.py`). -/
structure ScoringItem where
  category : String
  item_name : String
  max_score : Option MaxScore := none
  criteria : Option String := none
  source : Option DocumentSource := none
deriving DecidableEq

/-- ScoringCriteria (`data_models.py`). -/
structure ScoringCriteria where
  preliminary_review : List ExtractedField := []
  evaluation_method : ExtractedField := {}
  score_composition : ScoreComposition := {}
  detailed_scoring : List ScoringItem := []
  bonus_points : List ExtractedField := []
  disqualification_clauses : List ExtractedField := []
deriving DecidableEq

/-- ContractInformation (`data_models.py`). -/
structure ContractInformation where
  breach_liability : List ExtractedField := []
  contract_terms : List ExtractedField := []
  payment_terms : ExtractedField := {}
  delivery_requirements : ExtractedField := {}
  bid_validity : ExtractedField := {}
  intellectual_property : ExtractedField := {}
  confidentiality : ExtractedField := {}
  risk_warnings : List ExtractedField := []
deriving DecidableEq

/-- BiddingAnalysisResult (`data_models.py`). `analysis_time` is a tick
count standing for the `datetime`. -/
structure BiddingAnalysisResult where
  document_name : String
  analysis_time : Nat := 0
  basic_information : BasicInformation := {}
  scoring_criteria : ScoringCriteria := {}
  contract_information : ContractInformation := {}
  processing_notes : List String := []
deriving DecidableEq

/-- Scalar-field merge used throughout `data_models.py`: prefer the new
field when its value is present and non-blank, else keep the existing. -/
def mergeScalarField (existing new : ExtractedField) : ExtractedField :=
  if hasNonBlank new.value then new else existing

/-- The duplicate test of `merge_extracted_field_list`: equal values, both
sources present (truthy), and equal source texts. -/
def isDupField (e n : ExtractedField) : Bool :=
  match e.source, n.source with
  | some es, some ns => e.value == n.value && es.source_text == ns.source_text
  | _, _ => false

/-- The duplicate test of `merge_scoring_item_list`: equal category and
item name. -/
def isDupScoringItem (e n : ScoringItem) : Bool :=
  e.category == n.category && e.item_name == n.item_name

/-- The common list-merge shape of `merge_extracted_field_list` and
`merge_scoring_item_list`: start from a copy of the existing list, then
append each new item that duplicates nothing already in the merged list. -/
def mergeDedupList {α : Type} (dup : α → α → Bool)
    (existing_list new_list : List α) : List α :=
  new_list.foldl
    (fun merged n => if merged.any (fun e => dup e n) then merged else merged ++ [n])
    existing_list

/-- merge_extracted_field_list (`data_models.py`). -/
def merge_extracted_field_list (existing_list new_list : List ExtractedField) :
    List ExtractedField :=
  mergeDedupList isDupField existing_list new_list

/-- merge_scoring_item_list (`data_models.py`). -/
def merge_scoring_item_list (existing_list new_list : List ScoringItem) :
    List ScoringItem :=
  mergeDedupList isDupScoringItem existing_list new_list

/-- First-occurrence deduplication with an accumulator of already-seen
strings; determinizes CPython's `list(set(xs))`. -/
def pySetAux (seen : List String) : List String → List String
  | [] => []
  | x :: xs => if x ∈ seen then pySetAux seen xs else x :: pySetAux (x :: seen) xs

/-- One possible result of Python `list(set(xs))` (the first-occurrence
listing). Set iteration order is implementation-defined; this fixed choice
keeps the pipeline model executable, and no proved run property depends on
it. Properties of the merged processing notes are stated over every
possible listing via `isSetListing`. -/
def pySetList (xs : List String) : List String :=
  pySetAux [] xs

/-- merge_qualification_criteria (`data_models.py`). -/
def merge_qualification_criteria (existing new : QualificationCriteria) :
    QualificationCriteria :=
  { company_certifications :=
      merge_extracted_field_list existing.company_certifications new.company_certifications
    project_experience :=
      merge_extracted_field_list existing.project_experience new.project_experience
    team_requirements :=
      merge_extracted_field_list existing.team_requirements new.team_requirements
    other_requirements :=
      merge_extracted_field_list existing.other_requirements new.other_requirements }

/-- merge_bid_document_requirements (`data_models.py`). -/
def merge_bid_document_requirements (existing new : BidDocumentRequirements) :
    BidDocumentRequirements :=
  { composition_and_format :=
      merge_extracted_field_list existing.composition_and_format new.composition_and_format
    binding_and_sealing :=
      merge_extracted_field_list existing.binding_and_sealing new.binding_and_sealing
    signature_and_seal :=
      merge_extracted_field_list existing.signature_and_seal new.signature_and_seal
    document_structure :=
      merge_extracted_field_list existing.document_structure new.document_structure }

/-- merge_bid_evaluation_process (`data_models.py`). -/
def merge_bid_evaluation_process (existing new : BidEvaluationProcess) :
    BidEvaluationProcess :=
  { bid_opening := merge_extracted_field_list existing.bid_opening new.bid_opening
    evaluation := merge_extracted_field_list existing.evaluation new.evaluation
    award_decision := merge_extracted_field_list existing.award_decision new.award_decision }

/-- merge_score_composition (`data_models.py`). -/
def merge_score_composition (existing new : ScoreComposition) : ScoreComposition :=
  { technical_score := mergeScalarField existing.technical_score new.technical_score
    commercial_score := mergeScalarField existing.commercial_score new.commercial_score
    price_score := mergeScalarField existing.price_score new.price_score
    other_scores := merge_extracted_field_list existing.other_scores new.other_scores }

/-- merge_basic_information (`data_models.py`). -/
def merge_basic_information (existing new : BasicInformation) : BasicInformation :=
  { project_name := mergeScalarField existing.project_name new.project_name
    tender_number := mergeScalarField existing.tender_number new.tender_number
    budget_amount := mergeScalarField existing.budget_amount new.budget_amount
    bid_deadline := mergeScalarField existing.bid_deadline new.bid_deadline
    bid_opening_time := mergeScalarField existing.bid_opening_time new.bid_opening_time
    bid_bond_amount := mergeScalarField existing.bid_bond_amount new.bid_bond_amount
    bid_bond_account := mergeScalarField existing.bid_bond_account new.bid_bond_account
    purchaser_name := mergeScalarField existing.purchaser_name new.purchaser_name
    purchaser_contact := mergeScalarField existing.purchaser_contact new.purchaser_contact
    agent_name := mergeScalarField existing.agent_name new.agent_name
    agent_contact := mergeScalarField existing.agent_contact new.agent_contact
    qualification_criteria :=
      merge_qualification_criteria existing.qualification_criteria new.qualification_criteria
    bid_document_requirements :=
      merge_bid_document_requirements existing.bid_document_requirements
        new.bid_document_requirements
    bid_evaluation_process :=
      merge_bid_evaluation_process existing.bid_evaluation_process
        new.bid_evaluation_process }

/-- merge_scoring_criteria (`data_models.py`). -/
def merge_scoring_criteria (existing new : ScoringCriteria) : ScoringCriteria :=
  { preliminary_review :=
      merge_extracted_field_list existing.preliminary_review new.preliminary_review
    detailed_scoring :=
      merge_scoring_item_list existing.detailed_scoring new.detailed_scoring
    bonus_points := merge_extracted_field_list existing.bonus_points new.bonus_points
    disqualification_clauses :=
      merge_extracted_field_list existing.disqualification_clauses
        new.disqualification_clauses
    evaluation_method := mergeScalarField existing.evaluation_method new.evaluation_method
    score_composition :=
      merge_score_composition existing.score_composition new.score_composition }

/-- merge_contract_information (`data_models.py`). -/
def merge_contract_information (existing new : ContractInformation) :
    ContractInformation :=
  { breach_liability :=
      merge_extracted_field_list existing.breach_liability new.breach_liability
    contract_terms := merge_extracted_field_list existing.contract_terms new.contract_terms
    risk_warnings := merge_extracted_field_list existing.risk_warnings new.risk_warnings
    payment_terms := mergeScalarField existing.payment_terms new.payment_terms
    delivery_requirements :=
      mergeScalarField existing.delivery_requirements new.delivery_requirements
    bid_validity := mergeScalarField existing.bid_validity new.bid_validity
    intellectual_property :=
      mergeScalarField existing.intellectual_property new.intellectual_property
    confidentiality := mergeScalarField existing.confidentiality new.confidentiality }

/-- merge_analysis_results (`data_models.py`), on two present snapshots
(the `None` fast paths and dict conversions are representation glue).
`analysis_time` takes the new value because a `datetime` is always truthy. -/
def merge_analysis_results (existing new : BiddingAnalysisResult) :
    BiddingAnalysisResult :=
  { document_name := pyOrStr new.document_name existing.document_name
    analysis_time := new.analysis_time
    basic_information :=
      merge_basic_information existing.basic_information new.basic_information
    scoring_criteria :=
      merge_scoring_criteria existing.scoring_criteria new.scoring_criteria
    contract_information :=
      merge_contract_information existing.contract_information new.contract_information
    processing_notes := pySetList (existing.processing_notes ++ new.processing_notes) }

/-- Any list that CPython's `list(set(src))` could return: duplicate-free,
with exactly the elements of `src`. Set iteration order is hash-dependent,
so every such listing must be considered. -/
def isSetListing (out src : List String) : Prop :=
  out.Nodup ∧ (∀ x ∈ out, x ∈ src) ∧ (∀ x ∈ src, x ∈ out)

instance (out src : List String) : Decidable (isSetListing out src) := by
  unfold isSetListing
  infer_instance

/-- `merge_analysis_results` with the processing-notes listing supplied
explicitly, standing for an arbitrary outcome of the hash-dependent
`list(set(existing + new))`; every other field of the merge is independent
of set iteration order. -/
def merge_analysis_results_withNotes (existing new : BiddingAnalysisResult)
    (notes : List String) : BiddingAnalysisResult :=
  { merge_analysis_results existing new with processing_notes := notes }

/-- The per-section completeness flags computed by the fan-in aggregator
(`parallel_aggregator.py`, `_validate_analysis_completeness`). -/
structure Completeness where
  basic_information : Bool
  scoring_criteria : Bool
  contract_information : Bool
deriving DecidableEq

/-- _validate_analysis_completeness (`parallel_aggregator.py`): each section
is judged by three sentinel fields only. -/
def validateAnalysisCompleteness (r : BiddingAnalysisResult) : Completeness :=
  { basic_information :=
      pyTruthyOptStr r.basic_information.project_name.value ||
      pyTruthyOptStr r.basic_information.tender_number.value ||
      !r.basic_information.qualification_criteria.company_certifications.isEmpty
    scoring_criteria :=
      pyTruthyOptStr r.scoring_criteria.evaluation_method.value ||
      !r.scoring_criteria.detailed_scoring.isEmpty ||
      pyTruthyOptStr r.scoring_criteria.score_composition.technical_score.value
    contract_information :=
      !r.contract_information.contract_terms.isEmpty ||
      !r.contract_information.breach_liability.isEmpty ||
      pyTruthyOptStr r.contract_information.payment_terms.value }

/-- Number of sections whose completeness flag is set (`sum(completeness.values())`). -/
def completedCount (c : Completeness) : Nat :=
  (cond c.basic_information 1 0) + (cond c.scoring_criteria 1 0) +
    (cond c.contract_information 1 0)

/-- _determine_final_step (`parallel_aggregator.py`). -/
def determineFinalStep (error_messages : List String) (c : Completeness) : String :=
  if !error_messages.isEmpty then
    if completedCount c > 0 then "partial_extraction_completed" else "extraction_failed"
  else if completedCount c == 3 then "parallel_extraction_completed"
  else if completedCount c > 0 then "partial_extraction_completed"
  else "extraction_failed"

/-- The agent-progress map of `ParallelProgressManager.__init__`
(`parallel_aggregator.py`), as an association list in insertion order. -/
def initAgentProgress : List (String × Int) :=
  [("basic_info_extractor", 0), ("scoring_analyzer", 0), ("contract_info_extractor", 0)]

/-- ParallelProgressManager.update_agent_progress: overwrite the entry when
the agent name is a key of the map, otherwise do nothing. No clamping. -/
def update_agent_progress (m : List (String × Int)) (agent_name : String)
    (progress : Int) : List (String × Int) :=
  if m.any (fun p => p.1 == agent_name) then
    m.map (fun p => if p.1 == agent_name then (p.1, progress) else p)
  else m

/-- First-match lookup in the agent-progress map. -/
def lookupAgent (m : List (String × Int)) (k : String) : Option Int :=
  match m with
  | [] => none
  | p :: t => if p.1 = k then some p.2 else lookupAgent t k

/-- Sum of the stored percentages (`sum(self.agent_progress.values())`). -/
def sumAgentProgress (m : List (String × Int)) : Int :=
  m.foldl (fun acc p => acc + p.2) 0

/-- ParallelProgressManager.get_overall_progress: floor-divide the sum by 3
(Python `//` is floor division) and cap at 100. -/
def get_overall_progress (m : List (String × Int)) : Int :=
  min 100 (Int.fdiv (sumAgentProgress m) 3)

/-- TaskStatus (`api/models/api_models.py`). -/
inductive TaskStatus where
  | pending
  | processing
  | completed
  | failed
deriving DecidableEq

/-- AnalysisProgress snapshot (`api/models/api_models.py`). -/
structure AnalysisProgress where
  current_step : String
  progress_percentage : Int
  step_description : String
  agent_progress : Option (List (String × Int)) := none
deriving DecidableEq

/-- A task record of `TaskService.tasks` (`task_service.py`), restricted to
the fields the scheduler contract reads. Timestamps are tick counts. -/
structure TaskInfo where
  task_id : String
  file_id : String
  pdf_path : String
  status : TaskStatus
  progress : AnalysisProgress
  result : Option BiddingAnalysisResult := none
  error_message : Option String := none
  created_at : Int
deriving DecidableEq

/-- The in-memory task table, in insertion order. -/
abbrev TaskTable : Type := List (String × TaskInfo)

/-- TaskService.cleanup_old_tasks: walk the table, delete every task whose
age in seconds exceeds `max_age_hours * 3600`, and count the deletions.
The task's status is never consulted. -/
def cleanup_old_tasks (current_time : Int) (max_age_hours : Int)
    (tasks : TaskTable) : TaskTable × Nat :=
  tasks.foldl
    (fun acc t =>
      if current_time - t.2.created_at > max_age_hours * 3600 then (acc.1, acc.2 + 1)
      else (acc.1 ++ [t], acc.2))
    (([] : List (String × TaskInfo)), 0)

/-- The initial progress snapshot a freshly created task gets
(`create_analysis_task`, `task_service.py`). -/
def initialTaskProgress : AnalysisProgress :=
  { current_step := "start", progress_percentage := 0,
    step_description := "等待开始分析", agent_progress := none }

/-- The pending record `create_analysis_task` stores before scheduling. -/
def pendingTaskInfo (task_id file_id pdf_path : String) (now : Int) : TaskInfo :=
  { task_id := task_id, file_id := file_id, pdf_path := pdf_path,
    status := TaskStatus.pending, progress := initialTaskProgress,
    result := none, error_message := none, created_at := now }

/-- TaskService.create_analysis_task: validate that the file reference
resolves (`get_file_info` truthy, then `get_pdf_path` non-None), raise a
`ValueError` otherwise, store a pending record, schedule the run and return
the new id at once. The file service is abstracted as the two lookup
functions; the fresh uuid is the `task_id` parameter. -/
def create_analysis_task (get_file_info : String → Bool)
    (get_pdf_path : String → Option String) (tasks : TaskTable)
    (file_id task_id : String) (now : Int) : Except String (TaskTable × String) :=
  if !get_file_info file_id then Except.error ("文件不存在: " ++ file_id)
  else
    match get_pdf_path file_id with
    | none => Except.error ("PDF文件不可用: " ++ file_id)
    | some pdf_path =>
        Except.ok (tasks ++ [(task_id, pendingTaskInfo task_id file_id pdf_path now)], task_id)

/-- The completion decision of `_run_analysis_task` (`task_service.py`,
lines 149-159): the task completes iff the pipeline's final step name is
`completed`, and fails otherwise. -/
def finalTaskStatus (final_step : String) : TaskStatus :=
  if final_step == "completed" then TaskStatus.completed else TaskStatus.failed

/-- GraphStateModel (`data_models.py`): the working envelope threaded
through the graph. The vector store is an opaque index handle. -/
structure GraphStateModel where
  document_path : String
  document_content : Option String := none
  chunks : List String := []
  vector_store : Option Nat := none
  analysis_result : BiddingAnalysisResult
  current_step : String := "start"
  error_messages : List String := []
  retry_count : Int := 0

/-- The LangGraph channel reducers of `GraphState` (`data_models.py`):
every channel is last-write-wins except `analysis_result`
(`merge_analysis_results`) and `error_messages` (`operator.add`). Each
node returns a full state dict, so applying a node's return to the
channels uses this pointwise combination. -/
def mergeChannels (old update : GraphStateModel) : GraphStateModel :=
  { document_path := update.document_path
    document_content := update.document_content
    chunks := update.chunks
    vector_store := update.vector_store
    analysis_result := merge_analysis_results old.analysis_result update.analysis_result
    current_step := update.current_step
    error_messages := old.error_messages ++ update.error_messages
    retry_count := update.retry_count }

/-- DocumentProcessor.process_document (`document_processor.py`). The file
system and the loading/indexing collaborators are abstracted as
`file_exists`, `load` and `index`; the `str(e)` of a collaborator failure
is its `Except.error` payload. Note that on an indexing failure the
document content and chunks were already assigned in place, and that no
failure branch ever assigns the vector store. -/
def process_document (file_exists : Bool)
    (load : Except String (String × List String)) (index : Except String Nat)
    (s : GraphStateModel) : GraphStateModel :=
  if !file_exists then
    { s with error_messages := s.error_messages ++ ["文件不存在: " ++ s.document_path]
             current_step := "error" }
  else
    match load with
    | Except.error m =>
        { s with error_messages := s.error_messages ++ ["文档预处理失败: " ++ m]
                 current_step := "error" }
    | Except.ok (full_text, chunk_texts) =>
        match index with
        | Except.error m =>
            { s with document_content := some full_text
                     chunks := chunk_texts
                     error_messages := s.error_messages ++ ["文档预处理失败: " ++ m]
                     current_step := "error" }
        | Except.ok handle =>
            { s with document_content := some full_text
                     chunks := chunk_texts
                     vector_store := some handle
                     current_step := "document_processed" }

/-- The bidding keywords `validate_document` scans for. -/
def biddingKeywords : List String :=
  ["招标", "投标", "采购", "评标", "开标", "中标", "招标公告", "招标文件", "投标文件", "评分标准"]

/-- DocumentProcessor.validate_document (`document_processor.py`). -/
def validate_document (s : GraphStateModel) : GraphStateModel :=
  if !pyTruthyOptStr s.document_content then
    { s with error_messages := s.error_messages ++ ["文档内容为空"]
             current_step := "error" }
  else
    let content := s.document_content.getD ""
    let s1 :=
      if content.length < 100 then
        { s with analysis_result :=
            { s.analysis_result with processing_notes :=
                s.analysis_result.processing_notes ++ ["文档内容过短，可能影响分析质量"] } }
      else s
    let found := biddingKeywords.filter (fun kw => containsSub content kw)
    let s2 :=
      if found.isEmpty then
        { s1 with analysis_result :=
            { s1.analysis_result with processing_notes :=
                s1.analysis_result.processing_notes ++ ["文档中未发现招标相关关键词，请确认文档类型"] } }
      else s1
    { s2 with current_step := "document_validated" }

/-- The chapter/heading patterns `extract_document_structure` scans for. -/
def structurePatterns : List String :=
  ["第一章", "第二章", "第三章", "第四章", "第五章",
   "一、", "二、", "三、", "四、", "五、", "六、", "七、", "八、", "九、", "十、",
   "1.", "2.", "3.", "4.", "5.", "6.", "7.", "8.", "9.", "10.",
   "（一）", "（二）", "（三）", "（四）", "（五）",
   "招标公告", "投标人须知", "评标办法", "合同条款", "技术规格",
   "商务要求", "资格审查", "评分标准"]

/-- One found-structure entry per non-empty stripped line whose text starts
with or contains some pattern (the scan breaks after the first match). -/
def foundStructureCount (content : String) : Nat :=
  ((splitLines content).map pyStrip).countP
    (fun line =>
      !line.isEmpty &&
        structurePatterns.any (fun p => startsWithSub line p || containsSub line p))

/-- DocumentProcessor.extract_document_structure (`document_processor.py`). -/
def extract_document_structure (s : GraphStateModel) : GraphStateModel :=
  let n := foundStructureCount (s.document_content.getD "")
  let s1 :=
    if n > 0 then
      { s with analysis_result :=
          { s.analysis_result with processing_notes :=
              s.analysis_result.processing_notes ++
                ["发现" ++ toString n ++ "个可能的章节结构"] } }
    else s
  { s1 with current_step := "structure_extracted" }

/-- create_document_processor_node (`document_processor.py`): run
`process_document`, then `validate_document` and
`extract_document_structure` unless the step already became `error`. -/
def document_processor_node (file_exists : Bool)
    (load : Except String (String × List String)) (index : Except String Nat)
    (s : GraphStateModel) : GraphStateModel :=
  let s1 := process_document file_exists load index s
  let s2 := if s1.current_step ≠ "error" then validate_document s1 else s1
  if s2.current_step ≠ "error" then extract_document_structure s2 else s2

/-- One extraction sub-step over the basic-information section. `tag` is the
error prefix of its `except` branch; `step_on_ok` the step name it assigns
on success (only the first sub-step assigns one). The retrieval and LLM
collaborators are abstracted as the `outcome`: `Except.ok upd` is a parsed
response applied to the owned section, `Except.error m` a raised failure.
Before any collaborator call the sub-step raises
`ValueError("向量存储未初始化")` when the vector store is absent. -/
def basicSubStep (tag : String) (step_on_ok : Option String)
    (outcome : Except String (BasicInformation → BasicInformation))
    (s : GraphStateModel) : GraphStateModel :=
  if s.vector_store.isNone then
    { s with error_messages := s.error_messages ++ [tag ++ "向量存储未初始化"] }
  else
    match outcome with
    | Except.error m => { s with error_messages := s.error_messages ++ [tag ++ m] }
    | Except.ok upd =>
        let s1 := { s with analysis_result :=
          { s.analysis_result with basic_information :=
              (upd s.analysis_result.basic_information) } }
        match step_on_ok with
        | some st => { s1 with current_step := st }
        | none => s1

/-- An extraction sub-step over the scoring-criteria section, same shape as
`basicSubStep`. -/
def scoringSubStep (tag : String) (step_on_ok : Option String)
    (outcome : Except String (ScoringCriteria → ScoringCriteria))
    (s : GraphStateModel) : GraphStateModel :=
  if s.vector_store.isNone then
    { s with error_messages := s.error_messages ++ [tag ++ "向量存储未初始化"] }
  else
    match outcome with
    | Except.error m => { s with error_messages := s.error_messages ++ [tag ++ m] }
    | Except.ok upd =>
        let s1 := { s with analysis_result :=
          { s.analysis_result with scoring_criteria :=
              (upd s.analysis_result.scoring_criteria) } }
        match step_on_ok with
        | some st => { s1 with current_step := st }
        | none => s1

/-- An extraction sub-step over the contract-information section, same
shape as `basicSubStep`. -/
def contractSubStep (tag : String) (step_on_ok : Option String)
    (outcome : Except String (ContractInformation → ContractInformation))
    (s : GraphStateModel) : GraphStateModel :=
  if s.vector_store.isNone then
    { s with error_messages := s.error_messages ++ [tag ++ "向量存储未初始化"] }
  else
    match outcome with
    | Except.error m => { s with error_messages := s.error_messages ++ [tag ++ m] }
    | Except.ok upd =>
        let s1 := { s with analysis_result :=
          { s.analysis_result with contract_information :=
              (upd s.analysis_result.contract_information) } }
        match step_on_ok with
        | some st => { s1 with current_step := st }
        | none => s1

/-- create_basic_info_extractor_node (`basic_info_extractor.py`): the four
sub-extractions run in sequence, each with its own catch-all. -/
def basic_info_extractor_node
    (b1 b2 b3 b4 : Except String (BasicInformation → BasicInformation))
    (s : GraphStateModel) : GraphStateModel :=
  let s1 := basicSubStep "基础信息提取失败: " (some "basic_info_extracted") b1 s
  let s2 := basicSubStep "资格审查条件提取失败: " none b2 s1
  let s3 := basicSubStep "投标文件要求提取失败: " none b3 s2
  basicSubStep "开评定标流程提取失败: " none b4 s3

/-- create_scoring_analyzer_node (`scoring_analyzer.py`). -/
def scoring_analyzer_node
    (p1 p2 : Except String (ScoringCriteria → ScoringCriteria))
    (s : GraphStateModel) : GraphStateModel :=
  let s1 := scoringSubStep "评分标准提取失败: " none p1 s
  scoringSubStep "详细评分细则提取失败: " (some "scoring_analyzed") p2 s1

/-- create_contract_info_extractor_node (`other_info_extractor.py`). -/
def contract_info_extractor_node
    (q1 q2 q3 : Except String (ContractInformation → ContractInformation))
    (s : GraphStateModel) : GraphStateModel :=
  let s1 := contractSubStep "违约责任信息提取失败: " none q1 s
  let s2 := contractSubStep "合同信息提取失败: " none q2 s1
  contractSubStep "风险识别失败: " (some "other_info_extracted") q3 s2

/-- ParallelAggregator.aggregate_parallel_results (`parallel_aggregator.py`),
try-path: compute completeness and install the final step name. (The
except-branch that sets `aggregation_failed` guards against runtime errors
that have no counterpart in the embedding.) -/
def parallel_aggregator_node (s : GraphStateModel) : GraphStateModel :=
  { s with current_step :=
      determineFinalStep s.error_messages (validateAnalysisCompleteness s.analysis_result) }

/-- OutputFormatter.format_output (`output_formatter.py`): rendering is
pure; the report save is the `save` outcome. On success the step becomes
`completed` and a note records the report location; on failure the error is
appended and the step becomes `error`. -/
def output_formatter_node (save : Except String String)
    (s : GraphStateModel) : GraphStateModel :=
  match save with
  | Except.ok output_file =>
      { s with current_step := "completed"
               analysis_result :=
                 { s.analysis_result with processing_notes :=
                     s.analysis_result.processing_notes ++
                       ["报告已保存到: " ++ output_file] } }
  | Except.error m =>
      { s with error_messages := s.error_messages ++ ["输出格式化失败: " ++ m]
               current_step := "error" }

/-- The error-handler node of `bidding_graph.py`: the
`state.get("analysis_result")` truthiness test always passes (the state
dict always carries the non-empty analysis-result dict), so the handler
runs the output formatter on the state as a best-effort salvage; the
formatter's own catch keeps any failure from escaping. -/
def error_handler_node (save : Except String String)
    (s : GraphStateModel) : GraphStateModel :=
  output_formatter_node save s

/-- BiddingAnalysisGraph._route_after_parallel_aggregation
(`bidding_graph.py`). -/
def route_after_parallel_aggregation (current_step : String) : String :=
  if current_step == "error" || current_step == "aggregation_failed" then "error"
  else if current_step == "parallel_extraction_completed" ||
          current_step == "partial_extraction_completed" then "continue"
  else if current_step == "extraction_failed" then "error"
  else "continue"

/-- The static edge list of `BiddingAnalysisGraph._create_graph`
(`bidding_graph.py`, lines 48-72). The only conditional edges leave the
aggregator; every edge out of the document processor is unconditional. -/
def graphEdges : List (String × String) :=
  [("document_processor", "basic_info_extractor"),
   ("document_processor", "scoring_analyzer"),
   ("document_processor", "contract_info_extractor"),
   ("basic_info_extractor", "parallel_aggregator"),
   ("scoring_analyzer", "parallel_aggregator"),
   ("contract_info_extractor", "parallel_aggregator"),
   ("output_formatter", "END"),
   ("error_handler", "END")]

/-- The collaborator outcomes of one pipeline run: file system, loader,
indexer, the nine extraction sub-steps, and the two possible report saves. -/
structure PipelineOracles where
  file_exists : Bool
  load : Except String (String × List String)
  index : Except String Nat
  b1 : Except String (BasicInformation → BasicInformation)
  b2 : Except String (BasicInformation → BasicInformation)
  b3 : Except String (BasicInformation → BasicInformation)
  b4 : Except String (BasicInformation → BasicInformation)
  p1 : Except String (ScoringCriteria → ScoringCriteria)
  p2 : Except String (ScoringCriteria → ScoringCriteria)
  q1 : Except String (ContractInformation → ContractInformation)
  q2 : Except String (ContractInformation → ContractInformation)
  q3 : Except String (ContractInformation → ContractInformation)
  save : Except String String
  error_save : Except String String

/-- The initial state built by `BiddingAnalysisGraph.run`
(`bidding_graph.py`, lines 161-170). -/
def initialState (document_path display_name : String) : GraphStateModel :=
  { document_path := document_path
    document_content := none
    chunks := []
    vector_store := none
    analysis_result := { document_name := display_name }
    current_step := "start"
    error_messages := []
    retry_count := 0 }

/-- The channel state after the document-processor superstep. -/
def preExtractionState (o : PipelineOracles) (document_path display_name : String) :
    GraphStateModel :=
  let s0 := initialState document_path display_name
  mergeChannels s0 (document_processor_node o.file_exists o.load o.index s0)

/-- The channel state after the parallel superstep: the three extractor
nodes each receive the post-preprocessing snapshot and their full returned
states are folded into the channels in node-insertion order. -/
def fanInState (o : PipelineOracles) (document_path display_name : String) :
    GraphStateModel :=
  let sDp := preExtractionState o document_path display_name
  let outB := basic_info_extractor_node o.b1 o.b2 o.b3 o.b4 sDp
  let outS := scoring_analyzer_node o.p1 o.p2 sDp
  let outC := contract_info_extractor_node o.q1 o.q2 o.q3 sDp
  mergeChannels (mergeChannels (mergeChannels sDp outB) outS) outC

/-- The channel state after the aggregation superstep. -/
def aggregatedState (o : PipelineOracles) (document_path display_name : String) :
    GraphStateModel :=
  let sPar := fanInState o document_path display_name
  mergeChannels sPar (parallel_aggregator_node sPar)

/-- The final channel state of one pipeline run: after aggregation the
conditional edge leads to the output formatter on `continue` and to the
error handler on `error`. -/
def finalState (o : PipelineOracles) (document_path display_name : String) :
    GraphStateModel :=
  let sAgg := aggregatedState o document_path display_name
  if route_after_parallel_aggregation sAgg.current_step == "continue" then
    mergeChannels sAgg (output_formatter_node o.save sAgg)
  else
    mergeChannels sAgg (error_handler_node o.error_save sAgg)

/-- Boolean test for a failed collaborator outcome. -/
def isErr {α : Type} : Except String α → Bool
  | Except.error _ => true
  | Except.ok _ => false

/-- All nine extraction sub-step collaborators fail. -/
def allExtractionFail (o : PipelineOracles) : Bool :=
  isErr o.b1 && isErr o.b2 && isErr o.b3 && isErr o.b4 &&
    isErr o.p1 && isErr o.p2 && isErr o.q1 && isErr o.q2 && isErr o.q3

/-- A field carries a source citation (the merge deduplication only ever
fires when both sides do). -/
def fieldSourced (f : ExtractedField) : Bool :=
  f.source.isSome

/-- Every field of the list carries a source citation. -/
def listSourced (l : List ExtractedField) : Bool :=
  l.all fieldSourced

/-- Every list item of a QualificationCriteria carries a source. -/
def sourcedQC (q : QualificationCriteria) : Bool :=
  listSourced q.company_certifications && listSourced q.project_experience &&
    listSourced q.team_requirements && listSourced q.other_requirements

/-- Every list item of a BidDocumentRequirements carries a source. -/
def sourcedBDR (b : BidDocumentRequirements) : Bool :=
  listSourced b.composition_and_format && listSourced b.binding_and_sealing &&
    listSourced b.signature_and_seal && listSourced b.document_structure

/-- Every list item of a BidEvaluationProcess carries a source. -/
def sourcedBEP (b : BidEvaluationProcess) : Bool :=
  listSourced b.bid_opening && listSourced b.evaluation && listSourced b.award_decision

/-- Every list item of a ScoreComposition carries a source. -/
def sourcedComp (c : ScoreComposition) : Bool :=
  listSourced c.other_scores

/-- Every ExtractedField list item of a BasicInformation carries a source. -/
def sourcedBI (b : BasicInformation) : Bool :=
  sourcedQC b.qualification_criteria && sourcedBDR b.bid_document_requirements &&
    sourcedBEP b.bid_evaluation_process

/-- Every ExtractedField list item of a ScoringCriteria carries a source. -/
def sourcedSC (s : ScoringCriteria) : Bool :=
  listSourced s.preliminary_review && listSourced s.bonus_points &&
    listSourced s.disqualification_clauses && sourcedComp s.score_composition

/-- Every ExtractedField list item of a ContractInformation carries a source. -/
def sourcedCI (c : ContractInformation) : Bool :=
  listSourced c.breach_liability && listSourced c.contract_terms &&
    listSourced c.risk_warnings

/-- Every ExtractedField appearing in a list field anywhere in the result
carries a source citation. -/
def sourcedResult (r : BiddingAnalysisResult) : Bool :=
  sourcedBI r.basic_information && sourcedSC r.scoring_criteria &&
    sourcedCI r.contract_information

/-- The spec's derivation of the final step name, written from the spec's
words as an ordered priority list, for comparison with
`determineFinalStep`: all three sections present and no errors recorded
give the parallel-completed name; otherwise at least one present section
gives the partial name; zero present sections give the failed name. -/
def specFinalStep (error_messages : List String) (c : Completeness) : String :=
  if completedCount c = 3 ∧ error_messages = [] then "parallel_extraction_completed"
  else if 1 ≤ completedCount c then "partial_extraction_completed"
  else "extraction_failed"

/-- The registry contents after an arbitrary sequence of
`update_agent_progress` calls starting from the initial map. -/
def registryAfter (ops : List (String × Int)) : List (String × Int) :=
  ops.foldl (fun m op => update_agent_progress m op.1 op.2) initAgentProgress

/-- Replace only the four basic-information extraction outcomes of a run's
oracles (for sibling-isolation statements). -/
def withBasicOracles (o : PipelineOracles)
    (b1 b2 b3 b4 : Except String (BasicInformation → BasicInformation)) :
    PipelineOracles :=
  { o with b1 := b1, b2 := b2, b3 := b3, b4 := b4 }

/-- A list item whose source citation is absent (`source=None`). -/
def c1UnsourcedField : ExtractedField :=
  { value := some "资质要求A", source := none }

/-- A snapshot holding one source-less list item; the merge deduplication
cannot fire on it. -/
def c1BadResult : BiddingAnalysisResult :=
  { document_name := "标书"
    scoring_criteria := { preliminary_review := [c1UnsourcedField] } }

/-- A source citation with a snippet. -/
def c1GoodSource : DocumentSource :=
  { source_text := some "第3页资质段" }

/-- A sourced snapshot for the witness. -/
def c1GoodA : BiddingAnalysisResult :=
  { document_name := "A"
    processing_notes := ["说明1"]
    scoring_criteria :=
      { preliminary_review := [{ value := some "评审x", source := some c1GoodSource }] } }

/-- A second sourced snapshot for the witness. -/
def c1GoodB : BiddingAnalysisResult :=
  { document_name := "B"
    contract_information :=
      { contract_terms := [{ value := some "条款y", source := some c1GoodSource }] } }

/-- A run whose preprocessing succeeds but whose nine extraction
collaborator calls all fail, and whose error-handler salvage save succeeds. -/
def c2Oracles : PipelineOracles :=
  { file_exists := true
    load := Except.ok ("招标", ["招标"])
    index := Except.ok 0
    b1 := Except.error "LLM调用失败"
    b2 := Except.error "LLM调用失败"
    b3 := Except.error "LLM调用失败"
    b4 := Except.error "LLM调用失败"
    p1 := Except.error "LLM调用失败"
    p2 := Except.error "LLM调用失败"
    q1 := Except.error "LLM调用失败"
    q2 := Except.error "LLM调用失败"
    q3 := Except.error "LLM调用失败"
    save := Except.ok "output/报告.md"
    error_save := Except.ok "output/部分报告.md" }

/-- A result whose basic-information section has exactly one non-empty
field, the budget amount, which is not among the sentinel fields. -/
def c3Result : BiddingAnalysisResult :=
  { document_name := "标书"
    basic_information := { budget_amount := { value := some "500万元" } } }

/-- An old task still processing. -/
def c4ProcTask : TaskInfo :=
  { task_id := "t1", file_id := "f1", pdf_path := "f1.pdf",
    status := TaskStatus.processing, progress := initialTaskProgress,
    result := none, error_message := none, created_at := 0 }

/-- A run whose document file does not exist, so preprocessing fails before
any collaborator is reached. -/
def c6Oracles : PipelineOracles :=
  { file_exists := false
    load := Except.error "不可达"
    index := Except.error "不可达"
    b1 := Except.ok (fun b => b)
    b2 := Except.ok (fun b => b)
    b3 := Except.ok (fun b => b)
    b4 := Except.ok (fun b => b)
    p1 := Except.ok (fun s => s)
    p2 := Except.ok (fun s => s)
    q1 := Except.ok (fun c => c)
    q2 := Except.ok (fun c => c)
    q3 := Except.ok (fun c => c)
    save := Except.ok "output/报告.md"
    error_save := Except.ok "output/部分报告.md" }

/-- Folding new items over an accumulator that already duplicates each of
them is the identity. -/
theorem mergeDedupList_no_new {α : Type} (dup : α → α → Bool) (acc b : List α)
    (h : ∀ n ∈ b, acc.any (fun e => dup e n) = true) :
    mergeDedupList dup acc b = acc := by
  induction b with
  | nil => rfl
  | cons n rest ih =>
      have hn : acc.any (fun e => dup e n) = true := h n (List.mem_cons_self n rest)
      simp only [mergeDedupList, List.foldl_cons, hn, if_true]
      exact ih fun k hk => h k (List.mem_cons_of_mem n hk)

/-- Elements of the accumulator survive the dedup-merge fold. -/
theorem mergeDedupList_mem_mono {α : Type} (dup : α → α → Bool) (b : List α) :
    ∀ acc : List α, ∀ x ∈ acc, x ∈ mergeDedupList dup acc b := by
  induction b with
  | nil => intro acc x hx; exact hx
  | cons n rest ih =>
      intro acc x hx
      simp only [mergeDedupList, List.foldl_cons]
      refine ih _ x ?_
      split
      · exact hx
      · exact List.mem_append_left _ hx

/-- After the dedup-merge fold, every new item has a duplicate (per `dup`)
in the result, provided `dup` is reflexive on the new items. -/
theorem mergeDedupList_dup_exists {α : Type} (dup : α → α → Bool) (b : List α)
    (hrefl : ∀ n ∈ b, dup n n = true) :
    ∀ acc : List α, ∀ n ∈ b, ∃ e ∈ mergeDedupList dup acc b, dup e n = true := by
  induction b with
  | nil => intro acc n hn; cases hn
  | cons m rest ih =>
      intro acc n hn
      simp only [mergeDedupList, List.foldl_cons]
      rcases List.mem_cons.mp hn with rfl | hn'
      · by_cases hc : acc.any (fun e => dup e n) = true
        · rw [if_pos hc]
          obtain ⟨e, he, hde⟩ := List.any_eq_true.mp hc
          exact ⟨e, mergeDedupList_mem_mono dup rest acc e he, hde⟩
        · rw [if_neg hc]
          exact ⟨n, mergeDedupList_mem_mono dup rest _ n (List.mem_append_right _ (by simp)),
            hrefl n (List.mem_cons_self n rest)⟩
      · exact ih (fun k hk => hrefl k (List.mem_cons_of_mem m hk)) _ n hn'

/-- Dedup-merging a list with itself is the identity when `dup` is
reflexive on its items. -/
theorem mergeDedupList_idem {α : Type} (dup : α → α → Bool) (l : List α)
    (hrefl : ∀ n ∈ l, dup n n = true) : mergeDedupList dup l l = l :=
  mergeDedupList_no_new dup l l fun n hn => List.any_eq_true.mpr ⟨n, hn, hrefl n hn⟩

/-- Dedup-merging the same new list again is the identity when `dup` is
reflexive on its items. -/
theorem mergeDedupList_stable {α : Type} (dup : α → α → Bool) (a b : List α)
    (hrefl : ∀ n ∈ b, dup n n = true) :
    mergeDedupList dup (mergeDedupList dup a b) b = mergeDedupList dup a b :=
  mergeDedupList_no_new dup _ b fun n hn =>
    List.any_eq_true.mpr (mergeDedupList_dup_exists dup b hrefl a n hn)

/-- The field-duplicate test is reflexive exactly on sourced fields. -/
theorem isDupField_refl (f : ExtractedField) (h : fieldSourced f = true) :
    isDupField f f = true := by
  obtain ⟨s, hs⟩ := Option.isSome_iff_exists.mp h
  simp [isDupField, hs]

/-- The scoring-item duplicate test is reflexive. -/
theorem isDupScoringItem_refl (i : ScoringItem) : isDupScoringItem i i = true := by
  simp [isDupScoringItem]

/-- Self-merge of a fully sourced field list is the identity. -/
theorem merge_extracted_field_list_idem (l : List ExtractedField)
    (h : listSourced l = true) : merge_extracted_field_list l l = l :=
  mergeDedupList_idem _ _ fun n hn =>
    isDupField_refl n (List.all_eq_true.mp h n hn)

/-- Re-merging the same fully sourced new list is the identity. -/
theorem merge_extracted_field_list_stable (a b : List ExtractedField)
    (h : listSourced b = true) :
    merge_extracted_field_list (merge_extracted_field_list a b) b =
      merge_extracted_field_list a b :=
  mergeDedupList_stable _ _ _ fun n hn =>
    isDupField_refl n (List.all_eq_true.mp h n hn)

/-- Self-merge of a scoring-item list is the identity. -/
theorem merge_scoring_item_list_idem (l : List ScoringItem) :
    merge_scoring_item_list l l = l :=
  mergeDedupList_idem _ _ fun n _ => isDupScoringItem_refl n

/-- Re-merging the same scoring-item list is the identity. -/
theorem merge_scoring_item_list_stable (a b : List ScoringItem) :
    merge_scoring_item_list (merge_scoring_item_list a b) b =
      merge_scoring_item_list a b :=
  mergeDedupList_stable _ _ _ fun n _ => isDupScoringItem_refl n

/-- Self-merge of a scalar field is the identity. -/
theorem mergeScalarField_idem (f : ExtractedField) : mergeScalarField f f = f := by
  unfold mergeScalarField; split <;> rfl

/-- Re-merging the same new scalar field is the identity. -/
theorem mergeScalarField_stable (a b : ExtractedField) :
    mergeScalarField (mergeScalarField a b) b = mergeScalarField a b := by
  unfold mergeScalarField
  by_cases h : hasNonBlank b.value = true <;> simp [h]

/-- Python `a or a` is `a`. -/
theorem pyOrStr_idem (a : String) : pyOrStr a a = a := by
  unfold pyOrStr; split <;> rfl

/-- Re-applying the string fallback with the same new value is stable. -/
theorem pyOrStr_stable (a b : String) : pyOrStr b (pyOrStr b a) = pyOrStr b a := by
  unfold pyOrStr
  by_cases h : b.isEmpty = true <;> simp [h]

/-- Membership in the set-dedup accumulator fold. -/
theorem pySetAux_mem (x : String) :
    ∀ (l seen : List String), x ∈ pySetAux seen l ↔ x ∈ l ∧ x ∉ seen := by
  intro l
  induction l with
  | nil => intro seen; simp [pySetAux]
  | cons y ys ih =>
      intro seen
      by_cases hy : y ∈ seen
      · rw [pySetAux, if_pos hy, ih]
        constructor
        · rintro ⟨h1, h2⟩; exact ⟨List.mem_cons_of_mem _ h1, h2⟩
        · rintro ⟨h1, h2⟩
          rcases List.mem_cons.mp h1 with rfl | h1'
          · exact absurd hy h2
          · exact ⟨h1', h2⟩
      · rw [pySetAux, if_neg hy]
        constructor
        · intro hx
          rcases List.mem_cons.mp hx with rfl | hx'
          · exact ⟨List.mem_cons_self _ _, hy⟩
          · obtain ⟨h1, h2⟩ := (ih (y :: seen)).mp hx'
            exact ⟨List.mem_cons_of_mem _ h1, fun hseen => h2 (List.mem_cons_of_mem _ hseen)⟩
        · rintro ⟨h1, h2⟩
          rcases List.mem_cons.mp h1 with rfl | h1'
          · exact List.mem_cons_self _ _
          · by_cases hxy : x = y
            · subst hxy; exact List.mem_cons_self _ _
            · refine List.mem_cons_of_mem _ ((ih (y :: seen)).mpr ⟨h1', ?_⟩)
              intro hmem
              rcases List.mem_cons.mp hmem with h | h
              · exact hxy h
              · exact h2 h

/-- The set-dedup fold produces a duplicate-free list. -/
theorem pySetAux_nodup : ∀ (l seen : List String), (pySetAux seen l).Nodup := by
  intro l
  induction l with
  | nil => intro seen; simp [pySetAux]
  | cons y ys ih =>
      intro seen
      by_cases hy : y ∈ seen
      · rw [pySetAux, if_pos hy]; exact ih seen
      · rw [pySetAux, if_neg hy]
        refine List.nodup_cons.mpr ⟨?_, ih (y :: seen)⟩
        intro hmem
        exact ((pySetAux_mem y ys (y :: seen)).mp hmem).2 (List.mem_cons_self _ _)

/-- The set-dedup fold is the identity on duplicate-free lists disjoint
from the seen accumulator. -/
theorem pySetAux_eq_self :
    ∀ (l seen : List String), l.Nodup → (∀ x ∈ l, x ∉ seen) → pySetAux seen l = l := by
  intro l
  induction l with
  | nil => intro seen _ _; rfl
  | cons y ys ih =>
      intro seen hnd hdisj
      rw [pySetAux, if_neg (hdisj y (List.mem_cons_self _ _))]
      congr 1
      refine ih (y :: seen) (List.nodup_cons.mp hnd).2 ?_
      intro x hx hmem
      rcases List.mem_cons.mp hmem with rfl | h
      · exact (List.nodup_cons.mp hnd).1 hx
      · exact hdisj x (List.mem_cons_of_mem _ hx) h

/-- Splitting a set-dedup fold at an append: the tail is processed with an
accumulator holding exactly the old accumulator and the head list. -/
theorem pySetAux_append :
    ∀ (l b seen : List String), ∃ seen2,
      pySetAux seen (l ++ b) = pySetAux seen l ++ pySetAux seen2 b ∧
        ∀ x, x ∈ seen2 ↔ x ∈ seen ∨ x ∈ l := by
  intro l
  induction l with
  | nil =>
      intro b seen
      exact ⟨seen, by simp [pySetAux], fun x => by simp⟩
  | cons y ys ih =>
      intro b seen
      by_cases hy : y ∈ seen
      · obtain ⟨seen2, heq, hmem⟩ := ih b seen
        refine ⟨seen2, ?_, ?_⟩
        · rw [List.cons_append, pySetAux, if_pos hy, pySetAux, if_pos hy, heq]
        · intro x
          rw [hmem x]
          constructor
          · rintro (h | h)
            · exact Or.inl h
            · exact Or.inr (List.mem_cons_of_mem _ h)
          · rintro (h | h)
            · exact Or.inl h
            · rcases List.mem_cons.mp h with rfl | h'
              · exact Or.inl hy
              · exact Or.inr h'
      · obtain ⟨seen2, heq, hmem⟩ := ih b (y :: seen)
        refine ⟨seen2, ?_, ?_⟩
        · rw [List.cons_append, pySetAux, if_neg hy, pySetAux, if_neg hy, heq,
            List.cons_append]
        · intro x
          rw [hmem x]
          constructor
          · rintro (h | h)
            · rcases List.mem_cons.mp h with rfl | h'
              · exact Or.inr (List.mem_cons_self _ _)
              · exact Or.inl h'
            · exact Or.inr (List.mem_cons_of_mem _ h)
          · rintro (h | h)
            · exact Or.inl (List.mem_cons_of_mem _ h)
            · rcases List.mem_cons.mp h with rfl | h'
              · exact Or.inl (List.mem_cons_self _ _)
              · exact Or.inr h'

/-- The set-dedup fold drops a list entirely seen before. -/
theorem pySetAux_nil_of_all_seen :
    ∀ (b seen : List String), (∀ x ∈ b, x ∈ seen) → pySetAux seen b = [] := by
  intro b
  induction b with
  | nil => intro seen _; rfl
  | cons y ys ih =>
      intro seen h
      rw [pySetAux, if_pos (h y (List.mem_cons_self _ _))]
      exact ih seen fun x hx => h x (List.mem_cons_of_mem _ hx)

/-- Membership is preserved by the deterministic `list(set(·))`. -/
theorem pySetList_mem (x : String) (l : List String) :
    x ∈ pySetList l ↔ x ∈ l := by
  rw [pySetList, pySetAux_mem]
  simp

/-- The deterministic `list(set(·))` is duplicate-free. -/
theorem pySetList_nodup (l : List String) : (pySetList l).Nodup :=
  pySetAux_nodup l []

/-- The deterministic `list(set(·))` fixes duplicate-free lists. -/
theorem pySetList_eq_self (l : List String) (h : l.Nodup) : pySetList l = l :=
  pySetAux_eq_self l [] h (by simp)

/-- Appending already-present elements does not change the dedup result. -/
theorem pySetList_absorb (l b : List String) (h : ∀ x ∈ b, x ∈ l) :
    pySetList (l ++ b) = pySetList l := by
  obtain ⟨seen2, heq, hmem⟩ := pySetAux_append l b []
  rw [pySetList, heq, pySetAux_nil_of_all_seen b seen2
    (fun x hx => (hmem x).mpr (Or.inr (h x hx))), List.append_nil]
  rfl

/-- Self-merge of fully sourced qualification criteria is the identity. -/
theorem merge_qc_idem (q : QualificationCriteria) (h : sourcedQC q = true) :
    merge_qualification_criteria q q = q := by
  obtain ⟨⟨⟨h1, h2⟩, h3⟩, h4⟩ := by simpa [sourcedQC, Bool.and_eq_true] using h
  cases q
  simp only [merge_qualification_criteria, QualificationCriteria.mk.injEq]
  exact ⟨merge_extracted_field_list_idem _ h1, merge_extracted_field_list_idem _ h2,
    merge_extracted_field_list_idem _ h3, merge_extracted_field_list_idem _ h4⟩

/-- Re-merging the same fully sourced qualification criteria is stable. -/
theorem merge_qc_stable (a b : QualificationCriteria) (h : sourcedQC b = true) :
    merge_qualification_criteria (merge_qualification_criteria a b) b =
      merge_qualification_criteria a b := by
  obtain ⟨⟨⟨h1, h2⟩, h3⟩, h4⟩ := by simpa [sourcedQC, Bool.and_eq_true] using h
  simp only [merge_qualification_criteria, QualificationCriteria.mk.injEq]
  exact ⟨merge_extracted_field_list_stable _ _ h1, merge_extracted_field_list_stable _ _ h2,
    merge_extracted_field_list_stable _ _ h3, merge_extracted_field_list_stable _ _ h4⟩

/-- Self-merge of fully sourced bid-document requirements is the identity. -/
theorem merge_bdr_idem (q : BidDocumentRequirements) (h : sourcedBDR q = true) :
    merge_bid_document_requirements q q = q := by
  obtain ⟨⟨⟨h1, h2⟩, h3⟩, h4⟩ := by simpa [sourcedBDR, Bool.and_eq_true] using h
  cases q
  simp only [merge_bid_document_requirements, BidDocumentRequirements.mk.injEq]
  exact ⟨merge_extracted_field_list_idem _ h1, merge_extracted_field_list_idem _ h2,
    merge_extracted_field_list_idem _ h3, merge_extracted_field_list_idem _ h4⟩

/-- Re-merging the same fully sourced bid-document requirements is stable. -/
theorem merge_bdr_stable (a b : BidDocumentRequirements) (h : sourcedBDR b = true) :
    merge_bid_document_requirements (merge_bid_document_requirements a b) b =
      merge_bid_document_requirements a b := by
  obtain ⟨⟨⟨h1, h2⟩, h3⟩, h4⟩ := by simpa [sourcedBDR, Bool.and_eq_true] using h
  simp only [merge_bid_document_requirements, BidDocumentRequirements.mk.injEq]
  exact ⟨merge_extracted_field_list_stable _ _ h1, merge_extracted_field_list_stable _ _ h2,
    merge_extracted_field_list_stable _ _ h3, merge_extracted_field_list_stable _ _ h4⟩

/-- Self-merge of a fully sourced bid-evaluation process is the identity. -/
theorem merge_bep_idem (q : BidEvaluationProcess) (h : sourcedBEP q = true) :
    merge_bid_evaluation_process q q = q := by
  obtain ⟨⟨h1, h2⟩, h3⟩ := by simpa [sourcedBEP, Bool.and_eq_true] using h
  cases q
  simp only [merge_bid_evaluation_process, BidEvaluationProcess.mk.injEq]
  exact ⟨merge_extracted_field_list_idem _ h1, merge_extracted_field_list_idem _ h2,
    merge_extracted_field_list_idem _ h3⟩

/-- Re-merging the same fully sourced bid-evaluation process is stable. -/
theorem merge_bep_stable (a b : BidEvaluationProcess) (h : sourcedBEP b = true) :
    merge_bid_evaluation_process (merge_bid_evaluation_process a b) b =
      merge_bid_evaluation_process a b := by
  obtain ⟨⟨h1, h2⟩, h3⟩ := by simpa [sourcedBEP, Bool.and_eq_true] using h
  simp only [merge_bid_evaluation_process, BidEvaluationProcess.mk.injEq]
  exact ⟨merge_extracted_field_list_stable _ _ h1, merge_extracted_field_list_stable _ _ h2,
    merge_extracted_field_list_stable _ _ h3⟩

/-- Self-merge of a fully sourced score composition is the identity. -/
theorem merge_comp_idem (q : ScoreComposition) (h : sourcedComp q = true) :
    merge_score_composition q q = q := by
  cases q
  simp only [merge_score_composition, ScoreComposition.mk.injEq]
  exact ⟨mergeScalarField_idem _, mergeScalarField_idem _, mergeScalarField_idem _,
    merge_extracted_field_list_idem _ (by simpa [sourcedComp] using h)⟩

/-- Re-merging the same fully sourced score composition is stable. -/
theorem merge_comp_stable (a b : ScoreComposition) (h : sourcedComp b = true) :
    merge_score_composition (merge_score_composition a b) b =
      merge_score_composition a b := by
  simp only [merge_score_composition, ScoreComposition.mk.injEq]
  exact ⟨mergeScalarField_stable _ _, mergeScalarField_stable _ _,
    mergeScalarField_stable _ _,
    merge_extracted_field_list_stable _ _ (by simpa [sourcedComp] using h)⟩

/-- Self-merge of fully sourced basic information is the identity. -/
theorem merge_bi_idem (q : BasicInformation) (h : sourcedBI q = true) :
    merge_basic_information q q = q := by
  obtain ⟨⟨h1, h2⟩, h3⟩ := by simpa [sourcedBI, Bool.and_eq_true] using h
  cases q
  simp only [merge_basic_information, BasicInformation.mk.injEq]
  refine ⟨mergeScalarField_idem _, mergeScalarField_idem _, mergeScalarField_idem _,
    mergeScalarField_idem _, mergeScalarField_idem _, mergeScalarField_idem _,
    mergeScalarField_idem _, mergeScalarField_idem _, mergeScalarField_idem _,
    mergeScalarField_idem _, mergeScalarField_idem _,
    merge_qc_idem _ h1, merge_bdr_idem _ h2, merge_bep_idem _ h3⟩

/-- Re-merging the same fully sourced basic information is stable. -/
theorem merge_bi_stable (a b : BasicInformation) (h : sourcedBI b = true) :
    merge_basic_information (merge_basic_information a b) b =
      merge_basic_information a b := by
  obtain ⟨⟨h1, h2⟩, h3⟩ := by simpa [sourcedBI, Bool.and_eq_true] using h
  simp only [merge_basic_information, BasicInformation.mk.injEq]
  refine ⟨mergeScalarField_stable _ _, mergeScalarField_stable _ _,
    mergeScalarField_stable _ _, mergeScalarField_stable _ _, mergeScalarField_stable _ _,
    mergeScalarField_stable _ _, mergeScalarField_stable _ _, mergeScalarField_stable _ _,
    mergeScalarField_stable _ _, mergeScalarField_stable _ _, mergeScalarField_stable _ _,
    merge_qc_stable _ _ h1, merge_bdr_stable _ _ h2, merge_bep_stable _ _ h3⟩

/-- Self-merge of fully sourced scoring criteria is the identity. -/
theorem merge_sc_idem (q : ScoringCriteria) (h : sourcedSC q = true) :
    merge_scoring_criteria q q = q := by
  obtain ⟨⟨⟨h1, h2⟩, h3⟩, h4⟩ := by simpa [sourcedSC, Bool.and_eq_true] using h
  cases q
  simp only [merge_scoring_criteria, ScoringCriteria.mk.injEq]
  exact ⟨merge_extracted_field_list_idem _ h1, mergeScalarField_idem _,
    merge_comp_idem _ h4, merge_scoring_item_list_idem _,
    merge_extracted_field_list_idem _ h2, merge_extracted_field_list_idem _ h3⟩

/-- Re-merging the same fully sourced scoring criteria is stable. -/
theorem merge_sc_stable (a b : ScoringCriteria) (h : sourcedSC b = true) :
    merge_scoring_criteria (merge_scoring_criteria a b) b =
      merge_scoring_criteria a b := by
  obtain ⟨⟨⟨h1, h2⟩, h3⟩, h4⟩ := by simpa [sourcedSC, Bool.and_eq_true] using h
  simp only [merge_scoring_criteria, ScoringCriteria.mk.injEq]
  exact ⟨merge_extracted_field_list_stable _ _ h1, mergeScalarField_stable _ _,
    merge_comp_stable _ _ h4, merge_scoring_item_list_stable _ _,
    merge_extracted_field_list_stable _ _ h2, merge_extracted_field_list_stable _ _ h3⟩

/-- Self-merge of fully sourced contract information is the identity. -/
theorem merge_ci_idem (q : ContractInformation) (h : sourcedCI q = true) :
    merge_contract_information q q = q := by
  obtain ⟨⟨h1, h2⟩, h3⟩ := by simpa [sourcedCI, Bool.and_eq_true] using h
  cases q
  simp only [merge_contract_information, ContractInformation.mk.injEq]
  exact ⟨merge_extracted_field_list_idem _ h1, merge_extracted_field_list_idem _ h2,
    mergeScalarField_idem _, mergeScalarField_idem _, mergeScalarField_idem _,
    mergeScalarField_idem _, mergeScalarField_idem _, merge_extracted_field_list_idem _ h3⟩

/-- Re-merging the same fully sourced contract information is stable. -/
theorem merge_ci_stable (a b : ContractInformation) (h : sourcedCI b = true) :
    merge_contract_information (merge_contract_information a b) b =
      merge_contract_information a b := by
  obtain ⟨⟨h1, h2⟩, h3⟩ := by simpa [sourcedCI, Bool.and_eq_true] using h
  simp only [merge_contract_information, ContractInformation.mk.injEq]
  exact ⟨merge_extracted_field_list_stable _ _ h1, merge_extracted_field_list_stable _ _ h2,
    mergeScalarField_stable _ _, mergeScalarField_stable _ _, mergeScalarField_stable _ _,
    mergeScalarField_stable _ _, mergeScalarField_stable _ _,
    merge_extracted_field_list_stable _ _ h3⟩

/-- C1 counterexample: a snapshot holding one list item without a source
citation is not idempotent under the merge: the duplicate test requires
both sides to carry a source, so the item is appended again and
`merge(A, A) ≠ A`. -/
theorem c1_merge_not_idempotent :
    merge_analysis_results c1BadResult c1BadResult ≠ c1BadResult := by decide

/-- C1 (amended): for every possible set iteration order, merging a
snapshot whose list-field items all carry a source citation with itself
returns the snapshot unchanged except for the processing-notes listing,
which is a permutation of the (duplicate-free) original notes; and
re-merging `merge(A, B)` with `B` (B fully sourced) returns the first
merge unchanged except that its notes are re-listed as a permutation.
The source-less items of the counterexample break both properties. -/
theorem c1_merge_idempotent_and_stable (A B : BiddingAnalysisResult)
    (hA : sourcedResult A = true) (hN : A.processing_notes.Nodup)
    (hB : sourcedResult B = true) :
    (∀ notes1, isSetListing notes1 (A.processing_notes ++ A.processing_notes) →
      merge_analysis_results_withNotes A A notes1 =
          { A with processing_notes := notes1 } ∧
        List.Perm notes1 A.processing_notes) ∧
      ∀ notes2 notes3,
        isSetListing notes2 (A.processing_notes ++ B.processing_notes) →
        isSetListing notes3 (notes2 ++ B.processing_notes) →
        merge_analysis_results_withNotes
              (merge_analysis_results_withNotes A B notes2) B notes3 =
            { merge_analysis_results_withNotes A B notes2 with
                processing_notes := notes3 } ∧
          List.Perm notes3 notes2 := by
  obtain ⟨⟨hA1, hA2⟩, hA3⟩ := by simpa [sourcedResult, Bool.and_eq_true] using hA
  obtain ⟨⟨hB1, hB2⟩, hB3⟩ := by simpa [sourcedResult, Bool.and_eq_true] using hB
  constructor
  · rintro notes1 ⟨hnd, hout, hin⟩
    constructor
    · cases A with
      | mk nm tm bi sc ci notes =>
          simp only [merge_analysis_results_withNotes, merge_analysis_results,
            BiddingAnalysisResult.mk.injEq]
          exact ⟨pyOrStr_idem _, trivial, merge_bi_idem _ hA1, merge_sc_idem _ hA2,
            merge_ci_idem _ hA3, trivial⟩
    · rw [List.perm_ext_iff_of_nodup hnd hN]
      intro a
      constructor
      · intro ha
        rcases List.mem_append.mp (hout a ha) with h | h <;> exact h
      · intro ha
        exact hin a (List.mem_append_left _ ha)
  · rintro notes2 notes3 ⟨hnd2, hout2, hin2⟩ ⟨hnd3, hout3, hin3⟩
    constructor
    · simp only [merge_analysis_results_withNotes, merge_analysis_results,
        BiddingAnalysisResult.mk.injEq]
      exact ⟨pyOrStr_stable _ _, trivial, merge_bi_stable _ _ hB1,
        merge_sc_stable _ _ hB2, merge_ci_stable _ _ hB3, trivial⟩
    · rw [List.perm_ext_iff_of_nodup hnd3 hnd2]
      intro a
      constructor
      · intro ha
        rcases List.mem_append.mp (hout3 a ha) with h | h
        · exact h
        · exact hin2 a (List.mem_append_right _ h)
      · intro ha
        exact hin3 a (List.mem_append_left _ ha)

/-- C1 witness: the amended theorem applied to two concrete fully sourced
snapshots and a concrete notes listing. -/
theorem c1_merge_witness :
    (merge_analysis_results_withNotes c1GoodA c1GoodA ["说明1"] =
        { c1GoodA with processing_notes := ["说明1"] } ∧
      List.Perm ["说明1"] c1GoodA.processing_notes) ∧
      (merge_analysis_results_withNotes
            (merge_analysis_results_withNotes c1GoodA c1GoodB ["说明1"]) c1GoodB
            ["说明1"] =
          { merge_analysis_results_withNotes c1GoodA c1GoodB ["说明1"] with
              processing_notes := ["说明1"] } ∧
        List.Perm ["说明1"] ["说明1"]) :=
  ⟨(c1_merge_idempotent_and_stable c1GoodA c1GoodB (by decide) (by decide)
        (by decide)).1 ["说明1"] (by decide),
    (c1_merge_idempotent_and_stable c1GoodA c1GoodB (by decide) (by decide)
        (by decide)).2 ["说明1"] ["说明1"] (by decide) (by decide)⟩

/-- C3 counterexample: a basic-information section whose only non-empty
field is the budget amount is marked absent by the completeness check, so
"present iff some field is non-empty" fails. -/
theorem c3_nonempty_field_marked_absent :
    pyTruthyOptStr c3Result.basic_information.budget_amount.value = true ∧
      (validateAnalysisCompleteness c3Result).basic_information = false := by decide

/-- C3 (amended): a section counts as present iff one of its three sentinel
fields is non-empty — project name, tender number or company certifications
for basic information; evaluation method, detailed scoring or technical
score for scoring criteria; contract terms, breach liability or payment
terms for contract information. Other fields are ignored. -/
theorem c3_completeness_sentinel_fields (r : BiddingAnalysisResult) :
    ((validateAnalysisCompleteness r).basic_information = true ↔
      (pyTruthyOptStr r.basic_information.project_name.value = true ∨
       pyTruthyOptStr r.basic_information.tender_number.value = true ∨
       r.basic_information.qualification_criteria.company_certifications ≠ [])) ∧
    ((validateAnalysisCompleteness r).scoring_criteria = true ↔
      (pyTruthyOptStr r.scoring_criteria.evaluation_method.value = true ∨
       r.scoring_criteria.detailed_scoring ≠ [] ∨
       pyTruthyOptStr r.scoring_criteria.score_composition.technical_score.value = true)) ∧
    ((validateAnalysisCompleteness r).contract_information = true ↔
      (r.contract_information.contract_terms ≠ [] ∨
       r.contract_information.breach_liability ≠ [] ∨
       pyTruthyOptStr r.contract_information.payment_terms.value = true)) := by
  simp [validateAnalysisCompleteness, Bool.or_eq_true, List.isEmpty_iff,
    Bool.not_eq_true', or_assoc]

/-- C4 counterexample: a task whose status is still `processing` is evicted
by `cleanup` as soon as it is older than the threshold. -/
theorem c4_processing_task_evicted :
    c4ProcTask.status = TaskStatus.processing ∧
      cleanup_old_tasks 1 0 [("t1", c4ProcTask)] = ([], 1) := by decide

/-- The cleanup fold, unrolled to a pair of filters over the table. -/
theorem cleanup_foldl_spec (now h : Int) :
    ∀ (tasks : TaskTable) (acc : List (String × TaskInfo)) (cnt : Nat),
      tasks.foldl
          (fun a t =>
            if now - t.2.created_at > h * 3600 then (a.1, a.2 + 1) else (a.1 ++ [t], a.2))
          (acc, cnt) =
        (acc ++ tasks.filter (fun t => !decide (now - t.2.created_at > h * 3600)),
         cnt + (tasks.filter (fun t => decide (now - t.2.created_at > h * 3600))).length) := by
  intro tasks
  induction tasks with
  | nil => intro acc cnt; simp
  | cons t rest ih =>
      intro acc cnt
      rw [List.foldl_cons]
      by_cases hc : now - t.2.created_at > h * 3600
      · rw [if_pos hc, ih]
        simp only [List.filter_cons, hc, Prod.ext_iff]
        refine ⟨by simp, ?_⟩
        simp only [decide_eq_true_eq, if_pos hc]
        simp [List.length_cons]
        omega
      · rw [if_neg hc, ih]
        simp only [List.filter_cons, Prod.ext_iff]
        refine ⟨?_, by simp [hc]⟩
        simp [hc, List.append_assoc]

/-- C4 (amended): cleanup evicts exactly the tasks strictly older than the
threshold, regardless of status — a `processing` task older than the
threshold is evicted too — and returns the number evicted. -/
theorem c4_cleanup_by_age_only (now h : Int) (tasks : TaskTable) :
    (cleanup_old_tasks now h tasks).2 =
        (tasks.filter (fun t => decide (now - t.2.created_at > h * 3600))).length ∧
      ∀ e : String × TaskInfo, e ∈ (cleanup_old_tasks now h tasks).1 ↔
        e ∈ tasks ∧ ¬(now - e.2.created_at > h * 3600) := by
  unfold cleanup_old_tasks
  rw [cleanup_foldl_spec now h tasks [] 0]
  constructor
  · simp
  · intro e
    simp [List.mem_filter]

/-- C7: the aggregator's final-step derivation coincides with the spec's
ordered rules — parallel-completed when all three sections are present with
no errors, partial when at least one section is present, failed when none
is. -/
theorem c7_final_step_derivation (errs : List String) (c : Completeness) :
    determineFinalStep errs c = specFinalStep errs c := by
  rcases c with ⟨b1, b2, b3⟩
  rcases errs with _ | ⟨e, rest⟩ <;> cases b1 <;> cases b2 <;> cases b3 <;>
    simp [determineFinalStep, specFinalStep, completedCount]

/-- C8 counterexample: a stored percentage is not clamped — setting 150
stores 150, not `min 100 (max 0 150) = 100`. -/
theorem c8_no_clamping :
    update_agent_progress initAgentProgress "basic_info_extractor" 150 =
        [("basic_info_extractor", 150), ("scoring_analyzer", 0),
         ("contract_info_extractor", 0)] ∧
      (150 : Int) ≠ min 100 (max 0 150) := by decide

/-- Looking up after overwriting every entry of a matching key. -/
theorem lookupAgent_map_overwrite (t : List (String × Int)) (name : String) (p : Int)
    (q : String) :
    lookupAgent (t.map (fun e => if e.1 == name then (e.1, p) else e)) q =
      if q = name ∧ t.any (fun e => e.1 == name) = true then some p
      else lookupAgent t q := by
  induction t with
  | nil => simp [lookupAgent]
  | cons a t ih =>
      obtain ⟨k, v⟩ := a
      by_cases han : k = name
      · subst han
        by_cases hq : q = k
        · subst hq
          simp [lookupAgent]
        · have hkq : ¬(k = q) := fun hh => hq hh.symm
          simp only [lookupAgent, List.map_cons, beq_self_eq_true, if_true,
            if_neg hkq, ih]
          rw [if_neg (fun hh => hq hh.1), if_neg (fun hh => hq hh.1)]
      · by_cases hq : q = k
        · subst hq
          have hqn : ¬(q = name) := han
          simp [lookupAgent, han, hqn]
        · have hbeq : (k == name) = false := by simp [han]
          have hkq : ¬(k = q) := fun hh => hq hh.symm
          simp only [lookupAgent, List.map_cons, hbeq, Bool.false_eq_true, if_false,
            if_neg hkq, ih, List.any_cons, Bool.false_or]

/-- C8 (amended): `setProgress` stores the given value unclamped for an
agent name already in the registry, overwriting the prior value, and is a
no-op for unknown names: the lookup after an update returns the raw value
exactly when the queried name is the updated, known name. -/
theorem c8_set_progress_unclamped (m : List (String × Int)) (name : String) (p : Int)
    (q : String) :
    lookupAgent (update_agent_progress m name p) q =
      if q = name ∧ m.any (fun e => e.1 == name) = true then some p
      else lookupAgent m q := by
  unfold update_agent_progress
  by_cases hc : m.any (fun e => e.1 == name) = true
  · rw [if_pos hc, lookupAgent_map_overwrite]
  · rw [if_neg hc, if_neg (fun hh => hc hh.2)]

/-- C9: `submit` fails with the not-found `ValueError` exactly when the
file reference does not resolve (no file info or no usable PDF path);
otherwise it appends a fresh record with status `pending` and the initial
progress snapshot to the task table and returns the new task id at once,
the stored record still pending at return. -/
theorem c9_submit_validates_and_stores_pending (get_file_info : String → Bool)
    (get_pdf_path : String → Option String) (tasks : TaskTable)
    (file_id task_id : String) (now : Int) :
    ((∃ e, create_analysis_task get_file_info get_pdf_path tasks file_id task_id now =
        Except.error e) ↔ (get_file_info file_id = false ∨ get_pdf_path file_id = none)) ∧
      ∀ t' rid,
        create_analysis_task get_file_info get_pdf_path tasks file_id task_id now =
            Except.ok (t', rid) →
          rid = task_id ∧ ∃ p, get_pdf_path file_id = some p ∧
            t' = tasks ++ [(task_id, pendingTaskInfo task_id file_id p now)] ∧
            (task_id, pendingTaskInfo task_id file_id p now) ∈ t' ∧
            (pendingTaskInfo task_id file_id p now).status = TaskStatus.pending ∧
            (pendingTaskInfo task_id file_id p now).progress = initialTaskProgress := by
  unfold create_analysis_task
  by_cases hg : get_file_info file_id = true
  · rcases hgp : get_pdf_path file_id with _ | p
    · simp [hg, hgp]
    · simp only [hg, Bool.not_true, Bool.false_eq_true, if_false, hgp]
      constructor
      · constructor
        · rintro ⟨e, he⟩; cases he
        · rintro (h | h)
          · simp at h
          · simp at h
      · rintro t' rid he
        injection he with he'
        injection he' with h1 h2
        subst h1; subst h2
        exact ⟨rfl, p, rfl, rfl, List.mem_append_right _ (by simp), rfl, rfl⟩
  · have hg' : get_file_info file_id = false := by
      cases hgf : get_file_info file_id
      · rfl
      · exact absurd hgf hg
    simp [hg']

/-- The registry reachable from the initial map always has exactly the
three agent keys, in order. -/
theorem registryAfter_shape (ops : List (String × Int)) :
    ∃ x y z, registryAfter ops =
      [("basic_info_extractor", x), ("scoring_analyzer", y),
       ("contract_info_extractor", z)] := by
  have main : ∀ (l : List (String × Int)) (m : List (String × Int)),
      (∃ x y z, m = [("basic_info_extractor", x), ("scoring_analyzer", y),
        ("contract_info_extractor", z)]) →
      ∃ x y z, l.foldl (fun acc op => update_agent_progress acc op.1 op.2) m =
        [("basic_info_extractor", x), ("scoring_analyzer", y),
         ("contract_info_extractor", z)] := by
    intro l
    induction l with
    | nil => exact fun m hm => hm
    | cons op rest ih =>
        intro m hm
        rw [List.foldl_cons]
        refine ih _ ?_
        obtain ⟨x, y, z, rfl⟩ := hm
        unfold update_agent_progress
        split
        · refine ⟨if ("basic_info_extractor" == op.1) = true then op.2 else x,
            if ("scoring_analyzer" == op.1) = true then op.2 else y,
            if ("contract_info_extractor" == op.1) = true then op.2 else z, ?_⟩
          simp only [List.map_cons, List.map_nil]
          refine congrArg₂ _ ?_ (congrArg₂ _ ?_ (congrArg₂ _ ?_ rfl)) <;> split <;> rfl
        · exact ⟨x, y, z, rfl⟩
  exact main ops initAgentProgress ⟨0, 0, 0, rfl⟩

/-- C10: after any sequence of `setProgress` calls the registry's key list
is exactly the three agent names; a `setProgress` for any other name leaves
the registry unchanged; and the overall progress is the floor of the sum of
exactly these three entries divided by 3, capped at 100. -/
theorem c10_registry_fixed_keys (ops : List (String × Int)) :
    (registryAfter ops).map Prod.fst =
        ["basic_info_extractor", "scoring_analyzer", "contract_info_extractor"] ∧
      (∀ name p, name ∉ (registryAfter ops).map Prod.fst →
        update_agent_progress (registryAfter ops) name p = registryAfter ops) ∧
      get_overall_progress (registryAfter ops) =
        min 100 (Int.fdiv
          ((lookupAgent (registryAfter ops) "basic_info_extractor").getD 0 +
            (lookupAgent (registryAfter ops) "scoring_analyzer").getD 0 +
            (lookupAgent (registryAfter ops) "contract_info_extractor").getD 0) 3) := by
  obtain ⟨x, y, z, hm⟩ := registryAfter_shape ops
  rw [hm]
  refine ⟨rfl, ?_, ?_⟩
  · intro name p hname
    simp only [List.map_cons, List.map_nil, List.mem_cons, List.not_mem_nil,
      or_false, not_or] at hname
    obtain ⟨h1, h2, h3⟩ := hname
    unfold update_agent_progress
    rw [if_neg]
    simp only [List.any_cons, List.any_nil, Bool.or_eq_true, beq_iff_eq]
    rintro (h | h | h | h)
    · exact h1 h.symm
    · exact h2 h.symm
    · exact h3 h.symm
    · cases h
  · have l1 : lookupAgent [("basic_info_extractor", x), ("scoring_analyzer", y),
        ("contract_info_extractor", z)] "basic_info_extractor" = some x := by
      rw [lookupAgent, if_pos rfl]
    have l2 : lookupAgent [("basic_info_extractor", x), ("scoring_analyzer", y),
        ("contract_info_extractor", z)] "scoring_analyzer" = some y := by
      simp [lookupAgent]
    have l3 : lookupAgent [("basic_info_extractor", x), ("scoring_analyzer", y),
        ("contract_info_extractor", z)] "contract_info_extractor" = some z := by
      simp [lookupAgent]
    rw [l1, l2, l3]
    simp [get_overall_progress, sumAgentProgress]

/-- Channel-merge projections. -/
theorem mergeChannels_errs (a b : GraphStateModel) :
    (mergeChannels a b).error_messages = a.error_messages ++ b.error_messages := rfl

/-- Channel merge takes the update's step (last-write-wins). -/
theorem mergeChannels_step (a b : GraphStateModel) :
    (mergeChannels a b).current_step = b.current_step := rfl

/-- Channel merge combines results with `merge_analysis_results`. -/
theorem mergeChannels_ar (a b : GraphStateModel) :
    (mergeChannels a b).analysis_result =
      merge_analysis_results a.analysis_result b.analysis_result := rfl

/-- Channel merge takes the update's vector store. -/
theorem mergeChannels_vs (a b : GraphStateModel) :
    (mergeChannels a b).vector_store = b.vector_store := rfl

/-- Section projections of the result merge. -/
theorem merge_ar_bi (x y : BiddingAnalysisResult) :
    (merge_analysis_results x y).basic_information =
      merge_basic_information x.basic_information y.basic_information := rfl

/-- Scoring-criteria projection of the result merge. -/
theorem merge_ar_sc (x y : BiddingAnalysisResult) :
    (merge_analysis_results x y).scoring_criteria =
      merge_scoring_criteria x.scoring_criteria y.scoring_criteria := rfl

/-- Contract-information projection of the result merge. -/
theorem merge_ar_ci (x y : BiddingAnalysisResult) :
    (merge_analysis_results x y).contract_information =
      merge_contract_information x.contract_information y.contract_information := rfl

/-- Merging empty sections yields empty sections. -/
theorem merge_bi_empty : merge_basic_information {} {} = ({} : BasicInformation) := by decide

/-- Merging empty scoring criteria yields empty scoring criteria. -/
theorem merge_sc_empty : merge_scoring_criteria {} {} = ({} : ScoringCriteria) := by decide

/-- Merging empty contract information yields empty contract information. -/
theorem merge_ci_empty :
    merge_contract_information {} {} = ({} : ContractInformation) := by decide

/-- `process_document` never touches the analysis result. -/
theorem process_document_ar (fe : Bool) (l : Except String (String × List String))
    (i : Except String Nat) (s : GraphStateModel) :
    (process_document fe l i s).analysis_result = s.analysis_result := by
  unfold process_document
  split
  · rfl
  · split
    · rfl
    · split
      · rfl
      · rfl

/-- A failed `process_document` leaves the vector store untouched and
appends exactly one error message. -/
theorem process_document_fail (fe : Bool) (l : Except String (String × List String))
    (i : Except String Nat) (s : GraphStateModel)
    (h : (process_document fe l i s).current_step = "error") :
    (process_document fe l i s).vector_store = s.vector_store ∧
      ∃ m, (process_document fe l i s).error_messages = s.error_messages ++ [m] := by
  revert h
  unfold process_document
  split
  · exact fun _ => ⟨rfl, _, rfl⟩
  · split
    · exact fun _ => ⟨rfl, _, rfl⟩
    · split
      · exact fun _ => ⟨rfl, _, rfl⟩
      · intro h
        have h' : ("document_processed" : String) = "error" := h
        exact absurd h' (by decide)

/-- `validate_document` only touches the processing notes, the error list
and the step: the basic-information section is preserved. -/
theorem validate_document_bi (s : GraphStateModel) :
    (validate_document s).analysis_result.basic_information =
      s.analysis_result.basic_information := by
  unfold validate_document
  dsimp only
  split_ifs <;> rfl

/-- `validate_document` preserves the scoring-criteria section. -/
theorem validate_document_sc (s : GraphStateModel) :
    (validate_document s).analysis_result.scoring_criteria =
      s.analysis_result.scoring_criteria := by
  unfold validate_document
  dsimp only
  split_ifs <;> rfl

/-- `validate_document` preserves the contract-information section. -/
theorem validate_document_ci (s : GraphStateModel) :
    (validate_document s).analysis_result.contract_information =
      s.analysis_result.contract_information := by
  unfold validate_document
  dsimp only
  split_ifs <;> rfl

/-- `extract_document_structure` preserves the basic-information section. -/
theorem extract_structure_bi (s : GraphStateModel) :
    (extract_document_structure s).analysis_result.basic_information =
      s.analysis_result.basic_information := by
  unfold extract_document_structure
  dsimp only
  split_ifs <;> rfl

/-- `extract_document_structure` preserves the scoring-criteria section. -/
theorem extract_structure_sc (s : GraphStateModel) :
    (extract_document_structure s).analysis_result.scoring_criteria =
      s.analysis_result.scoring_criteria := by
  unfold extract_document_structure
  dsimp only
  split_ifs <;> rfl

/-- `extract_document_structure` preserves the contract-information section. -/
theorem extract_structure_ci (s : GraphStateModel) :
    (extract_document_structure s).analysis_result.contract_information =
      s.analysis_result.contract_information := by
  unfold extract_document_structure
  dsimp only
  split_ifs <;> rfl

/-- The document-processor node preserves the basic-information section. -/
theorem dp_node_bi (fe : Bool) (l : Except String (String × List String))
    (i : Except String Nat) (s : GraphStateModel) :
    (document_processor_node fe l i s).analysis_result.basic_information =
      s.analysis_result.basic_information := by
  simp only [document_processor_node]
  split_ifs <;> simp only [extract_structure_bi, validate_document_bi, process_document_ar]

/-- The document-processor node preserves the scoring-criteria section. -/
theorem dp_node_sc (fe : Bool) (l : Except String (String × List String))
    (i : Except String Nat) (s : GraphStateModel) :
    (document_processor_node fe l i s).analysis_result.scoring_criteria =
      s.analysis_result.scoring_criteria := by
  simp only [document_processor_node]
  split_ifs <;> simp only [extract_structure_sc, validate_document_sc, process_document_ar]

/-- The document-processor node preserves the contract-information section. -/
theorem dp_node_ci (fe : Bool) (l : Except String (String × List String))
    (i : Except String Nat) (s : GraphStateModel) :
    (document_processor_node fe l i s).analysis_result.contract_information =
      s.analysis_result.contract_information := by
  simp only [document_processor_node]
  split_ifs <;> simp only [extract_structure_ci, validate_document_ci, process_document_ar]

/-- When preprocessing fails, the node skips validation and structure
extraction and returns the failed state as-is. -/
theorem dp_node_of_fail (fe : Bool) (l : Except String (String × List String))
    (i : Except String Nat) (s : GraphStateModel)
    (h : (process_document fe l i s).current_step = "error") :
    document_processor_node fe l i s = process_document fe l i s := by
  have h1 : ¬((process_document fe l i s).current_step ≠ "error") := fun hc => hc h
  simp only [document_processor_node]
  rw [if_neg h1, if_neg h1]

/-- A failed basic sub-step appends exactly one error and changes nothing
else. -/
theorem basicSubStep_err (tag : String) (st : Option String)
    (o : Except String (BasicInformation → BasicInformation)) (s : GraphStateModel)
    (h : isErr o = true) :
    ∃ m, basicSubStep tag st o s =
      { s with error_messages := s.error_messages ++ [m] } := by
  unfold basicSubStep
  by_cases hv : s.vector_store.isNone = true
  · rw [if_pos hv]; exact ⟨_, rfl⟩
  · rw [if_neg hv]
    rcases o with m | f
    · exact ⟨tag ++ m, rfl⟩
    · simp [isErr] at h

/-- A failed scoring sub-step appends exactly one error. -/
theorem scoringSubStep_err (tag : String) (st : Option String)
    (o : Except String (ScoringCriteria → ScoringCriteria)) (s : GraphStateModel)
    (h : isErr o = true) :
    ∃ m, scoringSubStep tag st o s =
      { s with error_messages := s.error_messages ++ [m] } := by
  unfold scoringSubStep
  by_cases hv : s.vector_store.isNone = true
  · rw [if_pos hv]; exact ⟨_, rfl⟩
  · rw [if_neg hv]
    rcases o with m | f
    · exact ⟨tag ++ m, rfl⟩
    · simp [isErr] at h

/-- A failed contract sub-step appends exactly one error. -/
theorem contractSubStep_err (tag : String) (st : Option String)
    (o : Except String (ContractInformation → ContractInformation)) (s : GraphStateModel)
    (h : isErr o = true) :
    ∃ m, contractSubStep tag st o s =
      { s with error_messages := s.error_messages ++ [m] } := by
  unfold contractSubStep
  by_cases hv : s.vector_store.isNone = true
  · rw [if_pos hv]; exact ⟨_, rfl⟩
  · rw [if_neg hv]
    rcases o with m | f
    · exact ⟨tag ++ m, rfl⟩
    · simp [isErr] at h

/-- Without a vector store a basic sub-step fails fast with the
uninitialized-store error. -/
theorem basicSubStep_noStore (tag : String) (st : Option String)
    (o : Except String (BasicInformation → BasicInformation)) (s : GraphStateModel)
    (h : s.vector_store = none) :
    basicSubStep tag st o s =
      { s with error_messages := s.error_messages ++ [tag ++ "向量存储未初始化"] } := by
  unfold basicSubStep
  rw [if_pos (by simp [h])]

/-- Without a vector store a scoring sub-step fails fast. -/
theorem scoringSubStep_noStore (tag : String) (st : Option String)
    (o : Except String (ScoringCriteria → ScoringCriteria)) (s : GraphStateModel)
    (h : s.vector_store = none) :
    scoringSubStep tag st o s =
      { s with error_messages := s.error_messages ++ [tag ++ "向量存储未初始化"] } := by
  unfold scoringSubStep
  rw [if_pos (by simp [h])]

/-- Without a vector store a contract sub-step fails fast. -/
theorem contractSubStep_noStore (tag : String) (st : Option String)
    (o : Except String (ContractInformation → ContractInformation)) (s : GraphStateModel)
    (h : s.vector_store = none) :
    contractSubStep tag st o s =
      { s with error_messages := s.error_messages ++ [tag ++ "向量存储未初始化"] } := by
  unfold contractSubStep
  rw [if_pos (by simp [h])]

/-- A basic sub-step never touches the scoring-criteria section. -/
theorem basicSubStep_sc (tag : String) (st : Option String)
    (o : Except String (BasicInformation → BasicInformation)) (s : GraphStateModel) :
    (basicSubStep tag st o s).analysis_result.scoring_criteria =
      s.analysis_result.scoring_criteria := by
  unfold basicSubStep
  split
  · rfl
  · split
    · rfl
    · split <;> rfl

/-- A basic sub-step never touches the contract-information section. -/
theorem basicSubStep_ci (tag : String) (st : Option String)
    (o : Except String (BasicInformation → BasicInformation)) (s : GraphStateModel) :
    (basicSubStep tag st o s).analysis_result.contract_information =
      s.analysis_result.contract_information := by
  unfold basicSubStep
  split
  · rfl
  · split
    · rfl
    · split <;> rfl

/-- A scoring sub-step never touches the basic-information section. -/
theorem scoringSubStep_bi (tag : String) (st : Option String)
    (o : Except String (ScoringCriteria → ScoringCriteria)) (s : GraphStateModel) :
    (scoringSubStep tag st o s).analysis_result.basic_information =
      s.analysis_result.basic_information := by
  unfold scoringSubStep
  split
  · rfl
  · split
    · rfl
    · split <;> rfl

/-- A scoring sub-step never touches the contract-information section. -/
theorem scoringSubStep_ci (tag : String) (st : Option String)
    (o : Except String (ScoringCriteria → ScoringCriteria)) (s : GraphStateModel) :
    (scoringSubStep tag st o s).analysis_result.contract_information =
      s.analysis_result.contract_information := by
  unfold scoringSubStep
  split
  · rfl
  · split
    · rfl
    · split <;> rfl

/-- A contract sub-step never touches the basic-information section. -/
theorem contractSubStep_bi (tag : String) (st : Option String)
    (o : Except String (ContractInformation → ContractInformation)) (s : GraphStateModel) :
    (contractSubStep tag st o s).analysis_result.basic_information =
      s.analysis_result.basic_information := by
  unfold contractSubStep
  split
  · rfl
  · split
    · rfl
    · split <;> rfl

/-- A contract sub-step never touches the scoring-criteria section. -/
theorem contractSubStep_sc (tag : String) (st : Option String)
    (o : Except String (ContractInformation → ContractInformation)) (s : GraphStateModel) :
    (contractSubStep tag st o s).analysis_result.scoring_criteria =
      s.analysis_result.scoring_criteria := by
  unfold contractSubStep
  split
  · rfl
  · split
    · rfl
    · split <;> rfl

/-- The basic-information node never touches the scoring section. -/
theorem basic_node_sc (b1 b2 b3 b4 : Except String (BasicInformation → BasicInformation))
    (s : GraphStateModel) :
    (basic_info_extractor_node b1 b2 b3 b4 s).analysis_result.scoring_criteria =
      s.analysis_result.scoring_criteria := by
  unfold basic_info_extractor_node
  rw [basicSubStep_sc, basicSubStep_sc, basicSubStep_sc, basicSubStep_sc]

/-- The basic-information node never touches the contract section. -/
theorem basic_node_ci (b1 b2 b3 b4 : Except String (BasicInformation → BasicInformation))
    (s : GraphStateModel) :
    (basic_info_extractor_node b1 b2 b3 b4 s).analysis_result.contract_information =
      s.analysis_result.contract_information := by
  unfold basic_info_extractor_node
  rw [basicSubStep_ci, basicSubStep_ci, basicSubStep_ci, basicSubStep_ci]

/-- The scoring node never touches the basic-information section. -/
theorem scoring_node_bi (p1 p2 : Except String (ScoringCriteria → ScoringCriteria))
    (s : GraphStateModel) :
    (scoring_analyzer_node p1 p2 s).analysis_result.basic_information =
      s.analysis_result.basic_information := by
  unfold scoring_analyzer_node
  rw [scoringSubStep_bi, scoringSubStep_bi]

/-- The scoring node never touches the contract section. -/
theorem scoring_node_ci (p1 p2 : Except String (ScoringCriteria → ScoringCriteria))
    (s : GraphStateModel) :
    (scoring_analyzer_node p1 p2 s).analysis_result.contract_information =
      s.analysis_result.contract_information := by
  unfold scoring_analyzer_node
  rw [scoringSubStep_ci, scoringSubStep_ci]

/-- The contract node never touches the basic-information section. -/
theorem contract_node_bi
    (q1 q2 q3 : Except String (ContractInformation → ContractInformation))
    (s : GraphStateModel) :
    (contract_info_extractor_node q1 q2 q3 s).analysis_result.basic_information =
      s.analysis_result.basic_information := by
  unfold contract_info_extractor_node
  rw [contractSubStep_bi, contractSubStep_bi, contractSubStep_bi]

/-- The contract node never touches the scoring section. -/
theorem contract_node_sc
    (q1 q2 q3 : Except String (ContractInformation → ContractInformation))
    (s : GraphStateModel) :
    (contract_info_extractor_node q1 q2 q3 s).analysis_result.scoring_criteria =
      s.analysis_result.scoring_criteria := by
  unfold contract_info_extractor_node
  rw [contractSubStep_sc, contractSubStep_sc, contractSubStep_sc]

/-- Projection form of `basicSubStep_err`. -/
theorem basicSubStep_err_parts (tag : String) (st : Option String)
    (o : Except String (BasicInformation → BasicInformation)) (s : GraphStateModel)
    (h : isErr o = true) :
    ∃ m, (basicSubStep tag st o s).error_messages = s.error_messages ++ [m] ∧
      (basicSubStep tag st o s).analysis_result = s.analysis_result := by
  obtain ⟨m, e⟩ := basicSubStep_err tag st o s h
  exact ⟨m, by rw [e], by rw [e]⟩

/-- Projection form of `scoringSubStep_err`. -/
theorem scoringSubStep_err_parts (tag : String) (st : Option String)
    (o : Except String (ScoringCriteria → ScoringCriteria)) (s : GraphStateModel)
    (h : isErr o = true) :
    ∃ m, (scoringSubStep tag st o s).error_messages = s.error_messages ++ [m] ∧
      (scoringSubStep tag st o s).analysis_result = s.analysis_result := by
  obtain ⟨m, e⟩ := scoringSubStep_err tag st o s h
  exact ⟨m, by rw [e], by rw [e]⟩

/-- Projection form of `contractSubStep_err`. -/
theorem contractSubStep_err_parts (tag : String) (st : Option String)
    (o : Except String (ContractInformation → ContractInformation)) (s : GraphStateModel)
    (h : isErr o = true) :
    ∃ m, (contractSubStep tag st o s).error_messages = s.error_messages ++ [m] ∧
      (contractSubStep tag st o s).analysis_result = s.analysis_result := by
  obtain ⟨m, e⟩ := contractSubStep_err tag st o s h
  exact ⟨m, by rw [e], by rw [e]⟩

/-- Projection form of `basicSubStep_noStore`. -/
theorem basicSubStep_noStore_parts (tag : String) (st : Option String)
    (o : Except String (BasicInformation → BasicInformation)) (s : GraphStateModel)
    (h : s.vector_store = none) :
    (basicSubStep tag st o s).error_messages =
        s.error_messages ++ [tag ++ "向量存储未初始化"] ∧
      (basicSubStep tag st o s).analysis_result = s.analysis_result ∧
      (basicSubStep tag st o s).vector_store = none := by
  have e := basicSubStep_noStore tag st o s h
  exact ⟨by rw [e], by rw [e], by rw [e]; exact h⟩

/-- Projection form of `scoringSubStep_noStore`. -/
theorem scoringSubStep_noStore_parts (tag : String) (st : Option String)
    (o : Except String (ScoringCriteria → ScoringCriteria)) (s : GraphStateModel)
    (h : s.vector_store = none) :
    (scoringSubStep tag st o s).error_messages =
        s.error_messages ++ [tag ++ "向量存储未初始化"] ∧
      (scoringSubStep tag st o s).analysis_result = s.analysis_result ∧
      (scoringSubStep tag st o s).vector_store = none := by
  have e := scoringSubStep_noStore tag st o s h
  exact ⟨by rw [e], by rw [e], by rw [e]; exact h⟩

/-- Projection form of `contractSubStep_noStore`. -/
theorem contractSubStep_noStore_parts (tag : String) (st : Option String)
    (o : Except String (ContractInformation → ContractInformation)) (s : GraphStateModel)
    (h : s.vector_store = none) :
    (contractSubStep tag st o s).error_messages =
        s.error_messages ++ [tag ++ "向量存储未初始化"] ∧
      (contractSubStep tag st o s).analysis_result = s.analysis_result ∧
      (contractSubStep tag st o s).vector_store = none := by
  have e := contractSubStep_noStore tag st o s h
  exact ⟨by rw [e], by rw [e], by rw [e]; exact h⟩

/-- A basic node whose four collaborators all fail appends errors and
leaves the analysis result untouched. -/
theorem basic_node_err (b1 b2 b3 b4 : Except String (BasicInformation → BasicInformation))
    (s : GraphStateModel) (h1 : isErr b1 = true) (h2 : isErr b2 = true)
    (h3 : isErr b3 = true) (h4 : isErr b4 = true) :
    ∃ ms : List String, ms ≠ [] ∧
      (basic_info_extractor_node b1 b2 b3 b4 s).error_messages =
        s.error_messages ++ ms ∧
      (basic_info_extractor_node b1 b2 b3 b4 s).analysis_result =
        s.analysis_result := by
  obtain ⟨m1, he1, ha1⟩ :=
    basicSubStep_err_parts "基础信息提取失败: " (some "basic_info_extracted") b1 s h1
  obtain ⟨m2, he2, ha2⟩ := basicSubStep_err_parts "资格审查条件提取失败: " none b2
    (basicSubStep "基础信息提取失败: " (some "basic_info_extracted") b1 s) h2
  obtain ⟨m3, he3, ha3⟩ := basicSubStep_err_parts "投标文件要求提取失败: " none b3
    (basicSubStep "资格审查条件提取失败: " none b2
      (basicSubStep "基础信息提取失败: " (some "basic_info_extracted") b1 s)) h3
  obtain ⟨m4, he4, ha4⟩ := basicSubStep_err_parts "开评定标流程提取失败: " none b4
    (basicSubStep "投标文件要求提取失败: " none b3
      (basicSubStep "资格审查条件提取失败: " none b2
        (basicSubStep "基础信息提取失败: " (some "basic_info_extracted") b1 s))) h4
  refine ⟨[m1, m2, m3, m4], by simp, ?_, ?_⟩
  · simp only [basic_info_extractor_node]
    rw [he4, he3, he2, he1]
    simp
  · simp only [basic_info_extractor_node]
    rw [ha4, ha3, ha2, ha1]

/-- A scoring node whose two collaborators fail appends errors and leaves
the analysis result untouched. -/
theorem scoring_node_err (p1 p2 : Except String (ScoringCriteria → ScoringCriteria))
    (s : GraphStateModel) (h1 : isErr p1 = true) (h2 : isErr p2 = true) :
    ∃ ms : List String, ms ≠ [] ∧
      (scoring_analyzer_node p1 p2 s).error_messages = s.error_messages ++ ms ∧
      (scoring_analyzer_node p1 p2 s).analysis_result = s.analysis_result := by
  obtain ⟨m1, he1, ha1⟩ := scoringSubStep_err_parts "评分标准提取失败: " none p1 s h1
  obtain ⟨m2, he2, ha2⟩ := scoringSubStep_err_parts "详细评分细则提取失败: "
    (some "scoring_analyzed") p2 (scoringSubStep "评分标准提取失败: " none p1 s) h2
  refine ⟨[m1, m2], by simp, ?_, ?_⟩
  · simp only [scoring_analyzer_node]
    rw [he2, he1]
    simp
  · simp only [scoring_analyzer_node]
    rw [ha2, ha1]

/-- A contract node whose three collaborators fail appends errors and
leaves the analysis result untouched. -/
theorem contract_node_err
    (q1 q2 q3 : Except String (ContractInformation → ContractInformation))
    (s : GraphStateModel) (h1 : isErr q1 = true) (h2 : isErr q2 = true)
    (h3 : isErr q3 = true) :
    ∃ ms : List String, ms ≠ [] ∧
      (contract_info_extractor_node q1 q2 q3 s).error_messages =
        s.error_messages ++ ms ∧
      (contract_info_extractor_node q1 q2 q3 s).analysis_result =
        s.analysis_result := by
  obtain ⟨m1, he1, ha1⟩ := contractSubStep_err_parts "违约责任信息提取失败: " none q1 s h1
  obtain ⟨m2, he2, ha2⟩ := contractSubStep_err_parts "合同信息提取失败: " none q2
    (contractSubStep "违约责任信息提取失败: " none q1 s) h2
  obtain ⟨m3, he3, ha3⟩ := contractSubStep_err_parts "风险识别失败: "
    (some "other_info_extracted") q3
    (contractSubStep "合同信息提取失败: " none q2
      (contractSubStep "违约责任信息提取失败: " none q1 s)) h3
  refine ⟨[m1, m2, m3], by simp, ?_, ?_⟩
  · simp only [contract_info_extractor_node]
    rw [he3, he2, he1]
    simp
  · simp only [contract_info_extractor_node]
    rw [ha3, ha2, ha1]

/-- Without a vector store the basic node appends its four fail-fast
messages and leaves the analysis result untouched. -/
theorem basic_node_noStore
    (b1 b2 b3 b4 : Except String (BasicInformation → BasicInformation))
    (s : GraphStateModel) (h : s.vector_store = none) :
    (basic_info_extractor_node b1 b2 b3 b4 s).error_messages =
        s.error_messages ++
          ["基础信息提取失败: 向量存储未初始化", "资格审查条件提取失败: 向量存储未初始化",
           "投标文件要求提取失败: 向量存储未初始化", "开评定标流程提取失败: 向量存储未初始化"] ∧
      (basic_info_extractor_node b1 b2 b3 b4 s).analysis_result =
        s.analysis_result := by
  obtain ⟨he1, ha1, hv1⟩ :=
    basicSubStep_noStore_parts "基础信息提取失败: " (some "basic_info_extracted") b1 s h
  obtain ⟨he2, ha2, hv2⟩ := basicSubStep_noStore_parts "资格审查条件提取失败: " none b2
    (basicSubStep "基础信息提取失败: " (some "basic_info_extracted") b1 s) hv1
  obtain ⟨he3, ha3, hv3⟩ := basicSubStep_noStore_parts "投标文件要求提取失败: " none b3
    (basicSubStep "资格审查条件提取失败: " none b2
      (basicSubStep "基础信息提取失败: " (some "basic_info_extracted") b1 s)) hv2
  obtain ⟨he4, ha4, _⟩ := basicSubStep_noStore_parts "开评定标流程提取失败: " none b4
    (basicSubStep "投标文件要求提取失败: " none b3
      (basicSubStep "资格审查条件提取失败: " none b2
        (basicSubStep "基础信息提取失败: " (some "basic_info_extracted") b1 s))) hv3
  constructor
  · simp only [basic_info_extractor_node]
    rw [he4, he3, he2, he1]
    simp
  · simp only [basic_info_extractor_node]
    rw [ha4, ha3, ha2, ha1]

/-- Without a vector store the scoring node appends its two fail-fast
messages and leaves the analysis result untouched. -/
theorem scoring_node_noStore (p1 p2 : Except String (ScoringCriteria → ScoringCriteria))
    (s : GraphStateModel) (h : s.vector_store = none) :
    (scoring_analyzer_node p1 p2 s).error_messages =
        s.error_messages ++
          ["评分标准提取失败: 向量存储未初始化", "详细评分细则提取失败: 向量存储未初始化"] ∧
      (scoring_analyzer_node p1 p2 s).analysis_result = s.analysis_result := by
  obtain ⟨he1, ha1, hv1⟩ := scoringSubStep_noStore_parts "评分标准提取失败: " none p1 s h
  obtain ⟨he2, ha2, _⟩ := scoringSubStep_noStore_parts "详细评分细则提取失败: "
    (some "scoring_analyzed") p2 (scoringSubStep "评分标准提取失败: " none p1 s) hv1
  constructor
  · simp only [scoring_analyzer_node]
    rw [he2, he1]
    simp
  · simp only [scoring_analyzer_node]
    rw [ha2, ha1]

/-- Without a vector store the contract node appends its three fail-fast
messages and leaves the analysis result untouched. -/
theorem contract_node_noStore
    (q1 q2 q3 : Except String (ContractInformation → ContractInformation))
    (s : GraphStateModel) (h : s.vector_store = none) :
    (contract_info_extractor_node q1 q2 q3 s).error_messages =
        s.error_messages ++
          ["违约责任信息提取失败: 向量存储未初始化", "合同信息提取失败: 向量存储未初始化",
           "风险识别失败: 向量存储未初始化"] ∧
      (contract_info_extractor_node q1 q2 q3 s).analysis_result =
        s.analysis_result := by
  obtain ⟨he1, ha1, hv1⟩ := contractSubStep_noStore_parts "违约责任信息提取失败: " none q1 s h
  obtain ⟨he2, ha2, hv2⟩ := contractSubStep_noStore_parts "合同信息提取失败: " none q2
    (contractSubStep "违约责任信息提取失败: " none q1 s) hv1
  obtain ⟨he3, ha3, _⟩ := contractSubStep_noStore_parts "风险识别失败: "
    (some "other_info_extracted") q3
    (contractSubStep "合同信息提取失败: " none q2
      (contractSubStep "违约责任信息提取失败: " none q1 s)) hv2
  constructor
  · simp only [contract_info_extractor_node]
    rw [he3, he2, he1]
    simp
  · simp only [contract_info_extractor_node]
    rw [ha3, ha2, ha1]

/-- The aggregator node's step is the derived final step. -/
theorem parallel_aggregator_step (s : GraphStateModel) :
    (parallel_aggregator_node s).current_step =
      determineFinalStep s.error_messages
        (validateAnalysisCompleteness s.analysis_result) := rfl

/-- The aggregator node leaves the analysis result untouched. -/
theorem parallel_aggregator_ar (s : GraphStateModel) :
    (parallel_aggregator_node s).analysis_result = s.analysis_result := rfl

/-- The formatter preserves the basic-information section. -/
theorem formatter_bi (save : Except String String) (s : GraphStateModel) :
    (output_formatter_node save s).analysis_result.basic_information =
      s.analysis_result.basic_information := by
  unfold output_formatter_node
  split <;> rfl

/-- The formatter preserves the scoring-criteria section. -/
theorem formatter_sc (save : Except String String) (s : GraphStateModel) :
    (output_formatter_node save s).analysis_result.scoring_criteria =
      s.analysis_result.scoring_criteria := by
  unfold output_formatter_node
  split <;> rfl

/-- The formatter preserves the contract-information section. -/
theorem formatter_ci (save : Except String String) (s : GraphStateModel) :
    (output_formatter_node save s).analysis_result.contract_information =
      s.analysis_result.contract_information := by
  unfold output_formatter_node
  split <;> rfl

/-- The formatter's resulting step: completed on a successful save, error
otherwise. -/
theorem formatter_step (save : Except String String) (s : GraphStateModel) :
    (output_formatter_node save s).current_step =
      (if isErr save = true then "error" else "completed") := by
  rcases save with m | v <;> rfl

/-- Completeness of a result whose three sections are empty. -/
theorem completeness_of_empty (r : BiddingAnalysisResult)
    (hb : r.basic_information = {}) (hs : r.scoring_criteria = {})
    (hc : r.contract_information = {}) :
    validateAnalysisCompleteness r = ⟨false, false, false⟩ := by
  unfold validateAnalysisCompleteness
  rw [hb, hs, hc]
  rfl

/-- With no section present and a non-empty error list the final step is
the extraction-failed name. -/
theorem determineFinalStep_of_empty (errs : List String) (h : errs ≠ []) :
    determineFinalStep errs ⟨false, false, false⟩ = "extraction_failed" := by
  rcases errs with _ | ⟨e, t⟩
  · exact absurd rfl h
  · rfl

/-- The three sections of the post-preprocessing channel state are empty. -/
theorem preExtraction_sections_empty (o : PipelineOracles) (path name : String) :
    (preExtractionState o path name).analysis_result.basic_information = {} ∧
      (preExtractionState o path name).analysis_result.scoring_criteria = {} ∧
      (preExtractionState o path name).analysis_result.contract_information = {} := by
  simp only [preExtractionState, mergeChannels_ar]
  refine ⟨?_, ?_, ?_⟩
  · rw [merge_ar_bi, dp_node_bi]; rfl
  · rw [merge_ar_sc, dp_node_sc]; rfl
  · rw [merge_ar_ci, dp_node_ci]; rfl

/-- The fan-in error channel is the concatenation of the preprocessing
errors with the three extractor nodes' returned error lists, in node
order. -/
theorem fanIn_errs (o : PipelineOracles) (path name : String) :
    (fanInState o path name).error_messages =
      ((preExtractionState o path name).error_messages ++
        (basic_info_extractor_node o.b1 o.b2 o.b3 o.b4
          (preExtractionState o path name)).error_messages ++
        (scoring_analyzer_node o.p1 o.p2
          (preExtractionState o path name)).error_messages) ++
        (contract_info_extractor_node o.q1 o.q2 o.q3
          (preExtractionState o path name)).error_messages := by
  simp only [fanInState, mergeChannels_errs]

/-- The three sections of the fan-in state are empty whenever each
extractor node returned its input result unchanged. -/
theorem fanIn_sections_empty (o : PipelineOracles) (path name : String)
    (hB : (basic_info_extractor_node o.b1 o.b2 o.b3 o.b4
        (preExtractionState o path name)).analysis_result =
      (preExtractionState o path name).analysis_result)
    (hS : (scoring_analyzer_node o.p1 o.p2
        (preExtractionState o path name)).analysis_result =
      (preExtractionState o path name).analysis_result)
    (hC : (contract_info_extractor_node o.q1 o.q2 o.q3
        (preExtractionState o path name)).analysis_result =
      (preExtractionState o path name).analysis_result) :
    (fanInState o path name).analysis_result.basic_information = {} ∧
      (fanInState o path name).analysis_result.scoring_criteria = {} ∧
      (fanInState o path name).analysis_result.contract_information = {} := by
  obtain ⟨hb, hs, hc⟩ := preExtraction_sections_empty o path name
  simp only [fanInState, mergeChannels_ar, hB, hS, hC]
  refine ⟨?_, ?_, ?_⟩
  · simp only [merge_ar_bi, hb, merge_bi_empty]
  · simp only [merge_ar_sc, hs, merge_sc_empty]
  · simp only [merge_ar_ci, hc, merge_ci_empty]

/-- The error handler is the formatter run as a best-effort salvage. -/
theorem error_handler_eq (save : Except String String) (s : GraphStateModel) :
    error_handler_node save s = output_formatter_node save s := rfl

/-- The final state's scoring section is the self-merge of the aggregated
one, on both routes. -/
theorem finalState_sc (o : PipelineOracles) (path name : String) :
    (finalState o path name).analysis_result.scoring_criteria =
      merge_scoring_criteria
        (aggregatedState o path name).analysis_result.scoring_criteria
        (aggregatedState o path name).analysis_result.scoring_criteria := by
  simp only [finalState]
  split
  · rw [mergeChannels_ar, merge_ar_sc, formatter_sc]
  · simp only [error_handler_eq]
    rw [mergeChannels_ar, merge_ar_sc, formatter_sc]

/-- The final state's contract section is the self-merge of the aggregated
one, on both routes. -/
theorem finalState_ci (o : PipelineOracles) (path name : String) :
    (finalState o path name).analysis_result.contract_information =
      merge_contract_information
        (aggregatedState o path name).analysis_result.contract_information
        (aggregatedState o path name).analysis_result.contract_information := by
  simp only [finalState]
  split
  · rw [mergeChannels_ar, merge_ar_ci, formatter_ci]
  · simp only [error_handler_eq]
    rw [mergeChannels_ar, merge_ar_ci, formatter_ci]

/-- The aggregated scoring section is the self-merge of the fan-in one. -/
theorem aggregated_sc (o : PipelineOracles) (path name : String) :
    (aggregatedState o path name).analysis_result.scoring_criteria =
      merge_scoring_criteria (fanInState o path name).analysis_result.scoring_criteria
        (fanInState o path name).analysis_result.scoring_criteria := by
  simp only [aggregatedState, mergeChannels_ar, merge_ar_sc, parallel_aggregator_ar]

/-- The aggregated contract section is the self-merge of the fan-in one. -/
theorem aggregated_ci (o : PipelineOracles) (path name : String) :
    (aggregatedState o path name).analysis_result.contract_information =
      merge_contract_information
        (fanInState o path name).analysis_result.contract_information
        (fanInState o path name).analysis_result.contract_information := by
  simp only [aggregatedState, mergeChannels_ar, merge_ar_ci, parallel_aggregator_ar]

/-- The fan-in scoring section depends only on the preprocessing output and
the scoring node (the basic and contract nodes pass it through). -/
theorem fanIn_sc (o : PipelineOracles) (path name : String) :
    (fanInState o path name).analysis_result.scoring_criteria =
      merge_scoring_criteria
        (merge_scoring_criteria
          (merge_scoring_criteria
            (preExtractionState o path name).analysis_result.scoring_criteria
            (preExtractionState o path name).analysis_result.scoring_criteria)
          (scoring_analyzer_node o.p1 o.p2
            (preExtractionState o path name)).analysis_result.scoring_criteria)
        (preExtractionState o path name).analysis_result.scoring_criteria := by
  simp only [fanInState, mergeChannels_ar, merge_ar_sc, basic_node_sc, contract_node_sc]

/-- The fan-in contract section depends only on the preprocessing output
and the contract node. -/
theorem fanIn_ci (o : PipelineOracles) (path name : String) :
    (fanInState o path name).analysis_result.contract_information =
      merge_contract_information
        (merge_contract_information
          (merge_contract_information
            (preExtractionState o path name).analysis_result.contract_information
            (preExtractionState o path name).analysis_result.contract_information)
          (preExtractionState o path name).analysis_result.contract_information)
        (contract_info_extractor_node o.q1 o.q2 o.q3
          (preExtractionState o path name)).analysis_result.contract_information := by
  simp only [fanInState, mergeChannels_ar, merge_ar_ci, basic_node_ci, scoring_node_ci]

/-- C2 counterexample: a run in which every extraction collaborator fails
reaches the aggregator with the extraction-failed step, yet because the
error handler's best-effort render succeeds, the run's final step is
`completed` and the task status is `completed`, not `failed`. -/
theorem c2_completed_after_error_branch :
    allExtractionFail c2Oracles = true ∧
      (aggregatedState c2Oracles "p.pdf" "文件").current_step = "extraction_failed" ∧
      finalTaskStatus (finalState c2Oracles "p.pdf" "文件").current_step =
        TaskStatus.completed := by
  refine ⟨by decide, by decide, by decide⟩

/-- C2 (amended): when all nine extraction collaborator calls fail, the
aggregation step sets the step name to `extraction_failed` and control
routes to the error handler; the task status then depends on the error
handler's best-effort render: `failed` exactly when the salvage save also
fails, and `completed` when it succeeds. -/
theorem c2_all_fail_status (o : PipelineOracles) (path name : String)
    (h : allExtractionFail o = true) :
    (aggregatedState o path name).current_step = "extraction_failed" ∧
      route_after_parallel_aggregation
          (aggregatedState o path name).current_step = "error" ∧
      finalTaskStatus (finalState o path name).current_step =
        (if isErr o.error_save = true then TaskStatus.failed
         else TaskStatus.completed) := by
  obtain ⟨⟨⟨⟨⟨⟨⟨⟨hb1, hb2⟩, hb3⟩, hb4⟩, hp1⟩, hp2⟩, hq1⟩, hq2⟩, hq3⟩ :=
    by simpa [allExtractionFail, Bool.and_eq_true] using h
  obtain ⟨msB, hmsB, heB, haB⟩ :=
    basic_node_err o.b1 o.b2 o.b3 o.b4 (preExtractionState o path name) hb1 hb2 hb3 hb4
  obtain ⟨msS, hmsS, heS, haS⟩ :=
    scoring_node_err o.p1 o.p2 (preExtractionState o path name) hp1 hp2
  obtain ⟨msC, hmsC, heC, haC⟩ :=
    contract_node_err o.q1 o.q2 o.q3 (preExtractionState o path name) hq1 hq2 hq3
  obtain ⟨hbi, hsc, hci⟩ := fanIn_sections_empty o path name haB haS haC
  have herrne : (fanInState o path name).error_messages ≠ [] := by
    rw [fanIn_errs, heC]
    intro hcontra
    exact hmsC (List.append_eq_nil.mp ((List.append_eq_nil.mp hcontra).2)).2
  have hagg : (aggregatedState o path name).current_step = "extraction_failed" := by
    simp only [aggregatedState, mergeChannels_step, parallel_aggregator_step]
    rw [completeness_of_empty _ hbi hsc hci, determineFinalStep_of_empty _ herrne]
  refine ⟨hagg, by rw [hagg]; decide, ?_⟩
  simp only [finalState]
  rw [hagg, if_neg (by decide)]
  rw [mergeChannels_step, error_handler_eq, formatter_step]
  rcases hsave : o.error_save with m | v <;> simp [isErr, finalTaskStatus]

/-- C2 witness: the amended theorem at the concrete all-fail run. -/
theorem c2_all_fail_status_witness :
    (aggregatedState c2Oracles "p.pdf" "文件").current_step = "extraction_failed" ∧
      route_after_parallel_aggregation
          (aggregatedState c2Oracles "p.pdf" "文件").current_step = "error" ∧
      finalTaskStatus (finalState c2Oracles "p.pdf" "文件").current_step =
        (if isErr c2Oracles.error_save = true then TaskStatus.failed
         else TaskStatus.completed) :=
  c2_all_fail_status c2Oracles "p.pdf" "文件" (by decide)

/-- C6 counterexample: in a run whose document file is missing the
preprocessing step fails, yet all three extraction steps still execute —
each appends its fail-fast error to the run's error list. -/
theorem c6_extractors_run_after_preprocessing_failure :
    (process_document c6Oracles.file_exists c6Oracles.load c6Oracles.index
        (initialState "不存在.pdf" "文件")).current_step = "error" ∧
      "基础信息提取失败: 向量存储未初始化" ∈
        (fanInState c6Oracles "不存在.pdf" "文件").error_messages ∧
      "评分标准提取失败: 向量存储未初始化" ∈
        (fanInState c6Oracles "不存在.pdf" "文件").error_messages ∧
      "违约责任信息提取失败: 向量存储未初始化" ∈
        (fanInState c6Oracles "不存在.pdf" "文件").error_messages := by
  refine ⟨by decide, by decide, by decide, by decide⟩

/-- C6 (amended): the graph has no edge from the document processor to the
error handler; after a preprocessing failure the three extraction steps
still execute (each fails fast on the uninitialized vector store and
appends its error), and the error-handling step is reached only through
the aggregator's `extraction_failed` routing. -/
theorem c6_no_direct_error_route (o : PipelineOracles) (path name : String)
    (h : (process_document o.file_exists o.load o.index
        (initialState path name)).current_step = "error") :
    "基础信息提取失败: 向量存储未初始化" ∈ (fanInState o path name).error_messages ∧
      "评分标准提取失败: 向量存储未初始化" ∈ (fanInState o path name).error_messages ∧
      "违约责任信息提取失败: 向量存储未初始化" ∈ (fanInState o path name).error_messages ∧
      (aggregatedState o path name).current_step = "extraction_failed" ∧
      route_after_parallel_aggregation
          (aggregatedState o path name).current_step = "error" ∧
      ("document_processor", "error_handler") ∉ graphEdges ∧
      ("document_processor", "basic_info_extractor") ∈ graphEdges := by
  obtain ⟨hvs, m0, herr0⟩ := process_document_fail o.file_exists o.load o.index _ h
  have hdp := dp_node_of_fail o.file_exists o.load o.index (initialState path name) h
  have hvsDp : (preExtractionState o path name).vector_store = none := by
    simp only [preExtractionState, mergeChannels_vs, hdp, hvs]
    rfl
  obtain ⟨heB, haB⟩ := basic_node_noStore o.b1 o.b2 o.b3 o.b4 _ hvsDp
  obtain ⟨heS, haS⟩ := scoring_node_noStore o.p1 o.p2 _ hvsDp
  obtain ⟨heC, haC⟩ := contract_node_noStore o.q1 o.q2 o.q3 _ hvsDp
  have hf := fanIn_errs o path name
  have hagg : (aggregatedState o path name).current_step = "extraction_failed" := by
    obtain ⟨hbi, hsc, hci⟩ := fanIn_sections_empty o path name haB haS haC
    have herrne : (fanInState o path name).error_messages ≠ [] := by
      rw [hf, heC]
      intro hcontra
      have h2 := (List.append_eq_nil.mp ((List.append_eq_nil.mp hcontra).2)).2
      simp at h2
    simp only [aggregatedState, mergeChannels_step, parallel_aggregator_step]
    rw [completeness_of_empty _ hbi hsc hci, determineFinalStep_of_empty _ herrne]
  refine ⟨?_, ?_, ?_, hagg, by rw [hagg]; decide, by decide, by decide⟩
  · rw [hf, heB]; simp
  · rw [hf, heS]; simp
  · rw [hf, heC]; simp

/-- C6 witness: the amended theorem at the concrete missing-file run. -/
theorem c6_no_direct_error_route_witness :
    "基础信息提取失败: 向量存储未初始化" ∈
        (fanInState c6Oracles "不存在.pdf" "文件").error_messages ∧
      "评分标准提取失败: 向量存储未初始化" ∈
        (fanInState c6Oracles "不存在.pdf" "文件").error_messages ∧
      "违约责任信息提取失败: 向量存储未初始化" ∈
        (fanInState c6Oracles "不存在.pdf" "文件").error_messages ∧
      (aggregatedState c6Oracles "不存在.pdf" "文件").current_step = "extraction_failed" ∧
      route_after_parallel_aggregation
          (aggregatedState c6Oracles "不存在.pdf" "文件").current_step = "error" ∧
      ("document_processor", "error_handler") ∉ graphEdges ∧
      ("document_processor", "basic_info_extractor") ∈ graphEdges :=
  c6_no_direct_error_route c6Oracles "不存在.pdf" "文件" (by decide)

/-- C5: every extraction sub-step catches a collaborator failure, appends
one error string to the shared list and returns its state otherwise
unchanged instead of propagating; and the final result's scoring and
contract sections are unchanged when the basic-information step's four
collaborator outcomes are replaced arbitrarily — a sibling is never
aborted or affected by another step's failure. -/
theorem c5_extraction_fault_isolation :
    (∀ (tag m : String) (st : Option String) (s : GraphStateModel),
        s.vector_store.isSome = true →
        basicSubStep tag st (Except.error m) s =
          { s with error_messages := s.error_messages ++ [tag ++ m] }) ∧
      (∀ (tag m : String) (st : Option String) (s : GraphStateModel),
        s.vector_store.isSome = true →
        scoringSubStep tag st (Except.error m) s =
          { s with error_messages := s.error_messages ++ [tag ++ m] }) ∧
      (∀ (tag m : String) (st : Option String) (s : GraphStateModel),
        s.vector_store.isSome = true →
        contractSubStep tag st (Except.error m) s =
          { s with error_messages := s.error_messages ++ [tag ++ m] }) ∧
      (∀ (o : PipelineOracles)
          (b1 b2 b3 b4 : Except String (BasicInformation → BasicInformation))
          (path name : String),
        (finalState (withBasicOracles o b1 b2 b3 b4)
              path name).analysis_result.scoring_criteria =
            (finalState o path name).analysis_result.scoring_criteria ∧
          (finalState (withBasicOracles o b1 b2 b3 b4)
              path name).analysis_result.contract_information =
            (finalState o path name).analysis_result.contract_information) := by
  refine ⟨?_, ?_, ?_, ?_⟩
  · intro tag m st s hv
    obtain ⟨x, hx⟩ := Option.isSome_iff_exists.mp hv
    unfold basicSubStep
    rw [if_neg (by simp [hx])]
  · intro tag m st s hv
    obtain ⟨x, hx⟩ := Option.isSome_iff_exists.mp hv
    unfold scoringSubStep
    rw [if_neg (by simp [hx])]
  · intro tag m st s hv
    obtain ⟨x, hx⟩ := Option.isSome_iff_exists.mp hv
    unfold contractSubStep
    rw [if_neg (by simp [hx])]
  · intro o b1 b2 b3 b4 path name
    constructor
    · rw [finalState_sc, finalState_sc, aggregated_sc, aggregated_sc, fanIn_sc, fanIn_sc]
      rfl
    · rw [finalState_ci, finalState_ci, aggregated_ci, aggregated_ci, fanIn_ci, fanIn_ci]
      rfl
